import Mathlib

/-!
Verification development for the Prop-Bet analysis engine
(`analysis_engine.py`).  The repository ships without the optional
WagerBrain package, so the module-level fallback definitions
(`implied_probability`, `kelly_criterion`, `true_odds_ev`, ...) are the
functions actually bound at import time; they are embedded here together
with the `WagerBrainAnalysisEngine` methods.  Python floats are embedded
as exact rationals (`ℚ`), Python's banker's rounding `round(x, n)` as
`pyRound`, Python dictionaries with possibly-missing keys as structures
with `Option` fields, and the deterministic numpy/scipy library routines
(fixed seed 42) as an abstract deterministic `Env` record.
-/

namespace PropBet

/-- Round to the nearest integer, ties to the even integer (Python's
`round` on exact values). -/
def roundHalfEven (x : ℚ) : ℤ :=
  if x - ⌊x⌋ < 1/2 then ⌊x⌋
  else if 1/2 < x - ⌊x⌋ then ⌊x⌋ + 1
  else if ⌊x⌋ % 2 = 0 then ⌊x⌋ else ⌊x⌋ + 1

/-- Python `round(x, n)` on exact rational values. -/
def pyRound (n : ℕ) (x : ℚ) : ℚ := (roundHalfEven (x * 10 ^ n) : ℚ) / 10 ^ n

theorem roundHalfEven_intCast (k : ℤ) : roundHalfEven (k : ℚ) = k := by
  unfold roundHalfEven
  rw [Int.floor_intCast]
  norm_num

theorem floor_le_roundHalfEven (x : ℚ) : ⌊x⌋ ≤ roundHalfEven x := by
  unfold roundHalfEven
  split_ifs <;> omega

theorem roundHalfEven_le_floor_add_one (x : ℚ) : roundHalfEven x ≤ ⌊x⌋ + 1 := by
  unfold roundHalfEven
  split_ifs <;> omega

theorem int_le_roundHalfEven (m : ℤ) (x : ℚ) (h : (m : ℚ) ≤ x) :
    m ≤ roundHalfEven x :=
  le_trans (Int.le_floor.mpr h) (floor_le_roundHalfEven x)

theorem roundHalfEven_le_int (x : ℚ) (m : ℤ) (h : x ≤ (m : ℚ)) :
    roundHalfEven x ≤ m := by
  have hf : ⌊x⌋ ≤ m := by
    have h2 : ⌊x⌋ ≤ ⌊(m : ℚ)⌋ := Int.floor_mono h
    rwa [Int.floor_intCast] at h2
  rcases lt_or_eq_of_le hf with h1 | h1
  · have h2 := roundHalfEven_le_floor_add_one x
    omega
  · have h2 : x - ⌊x⌋ < 1/2 := by
      have h3 : x - (m : ℚ) ≤ 0 := by linarith
      rw [h1]
      linarith
    unfold roundHalfEven
    rw [if_pos h2, h1]

/-- Evaluation helper: when `x` is within the lower half of `[m, m+1)`,
round-half-even gives `m`. -/
theorem roundHalfEven_eq_low (x : ℚ) (m : ℤ) (h1 : (m : ℚ) ≤ x)
    (h2 : x - m < 1/2) : roundHalfEven x = m := by
  have hf : ⌊x⌋ = m := by
    rw [Int.floor_eq_iff]
    exact ⟨h1, by linarith⟩
  unfold roundHalfEven
  rw [hf, if_pos (by linarith)]

/-- Evaluation helper: when `x` is strictly within the upper half of
`(m, m+1)`, round-half-even gives `m + 1`. -/
theorem roundHalfEven_eq_high (x : ℚ) (m : ℤ) (h1 : 1/2 < x - m)
    (h2 : x < (m : ℚ) + 1) : roundHalfEven x = m + 1 := by
  have hf : ⌊x⌋ = m := by
    rw [Int.floor_eq_iff]
    exact ⟨by linarith, by linarith⟩
  unfold roundHalfEven
  rw [hf, if_neg (by linarith), if_pos (by linarith)]

theorem le_pyRound (n : ℕ) (x : ℚ) (m : ℤ) (h : (m : ℚ) / 10 ^ n ≤ x) :
    (m : ℚ) / 10 ^ n ≤ pyRound n x := by
  have hp : (0 : ℚ) < 10 ^ n := by positivity
  have h1 : (m : ℚ) ≤ x * 10 ^ n := by
    rw [div_le_iff₀ hp] at h
    exact h
  have h2 : m ≤ roundHalfEven (x * 10 ^ n) := int_le_roundHalfEven m _ h1
  unfold pyRound
  gcongr

theorem pyRound_le (n : ℕ) (x : ℚ) (m : ℤ) (h : x ≤ (m : ℚ) / 10 ^ n) :
    pyRound n x ≤ (m : ℚ) / 10 ^ n := by
  have hp : (0 : ℚ) < 10 ^ n := by positivity
  have h1 : x * 10 ^ n ≤ (m : ℚ) := by
    rw [le_div_iff₀ hp] at h
    exact h
  have h2 : roundHalfEven (x * 10 ^ n) ≤ m := roundHalfEven_le_int _ m h1
  unfold pyRound
  gcongr

theorem pyRound_nonneg (n : ℕ) (x : ℚ) (h : 0 ≤ x) : 0 ≤ pyRound n x := by
  have h1 := le_pyRound n x 0 (by simpa using h)
  simpa using h1

/-- Reflecting around an even integer commutes with round-half-even: the
two tie-breaking directions mirror each other exactly. -/
theorem roundHalfEven_reflect (N : ℤ) (hN : N % 2 = 0) (y : ℚ) :
    roundHalfEven ((N : ℚ) - y) = N - roundHalfEven y := by
  have hr0 : ((⌊y⌋ : ℤ) : ℚ) ≤ y := Int.floor_le y
  have hr1 : y < (⌊y⌋ : ℤ) + 1 := Int.lt_floor_add_one y
  by_cases hy : y - (⌊y⌋ : ℚ) = 0
  · have e1 : (N : ℚ) - y = ((N - ⌊y⌋ : ℤ) : ℚ) := by push_cast; linarith
    have e2 : roundHalfEven y = ⌊y⌋ := by
      have e3 : y = ((⌊y⌋ : ℤ) : ℚ) := by linarith
      conv_lhs => rw [e3]
      exact roundHalfEven_intCast _
    rw [e1, roundHalfEven_intCast, e2]
  · have hr2 : 0 < y - (⌊y⌋ : ℚ) := lt_of_le_of_ne (by linarith) (Ne.symm hy)
    have hfl : ⌊(N : ℚ) - y⌋ = N - ⌊y⌋ - 1 := by
      rw [Int.floor_eq_iff]
      constructor
      · push_cast
        linarith
      · push_cast
        linarith
    rcases lt_trichotomy (y - (⌊y⌋ : ℚ)) (1/2) with h | h | h
    · have eL : roundHalfEven ((N : ℚ) - y) = N - ⌊y⌋ - 1 + 1 := by
        unfold roundHalfEven
        rw [hfl, if_neg (by push_cast; linarith), if_pos (by push_cast; linarith)]
      have eR : roundHalfEven y = ⌊y⌋ := by
        unfold roundHalfEven
        rw [if_pos (by linarith)]
      rw [eL, eR]
      omega
    · have eL : roundHalfEven ((N : ℚ) - y) =
          if (N - ⌊y⌋ - 1) % 2 = 0 then N - ⌊y⌋ - 1 else N - ⌊y⌋ - 1 + 1 := by
        unfold roundHalfEven
        rw [hfl, if_neg (by push_cast; linarith), if_neg (by push_cast; linarith)]
      have eR : roundHalfEven y = if ⌊y⌋ % 2 = 0 then ⌊y⌋ else ⌊y⌋ + 1 := by
        unfold roundHalfEven
        rw [if_neg (by linarith), if_neg (by linarith)]
      rw [eL, eR]
      split_ifs <;> omega
    · have eL : roundHalfEven ((N : ℚ) - y) = N - ⌊y⌋ - 1 := by
        unfold roundHalfEven
        rw [hfl, if_pos (by push_cast; linarith)]
      have eR : roundHalfEven y = ⌊y⌋ + 1 := by
        unfold roundHalfEven
        rw [if_neg (by linarith), if_pos (by linarith)]
      rw [eL, eR]
      omega

/-- Python's `round(1 - p, 4)` equals `1 - round(p, 4)`: banker's rounding
ties mirror around the even tick count 10000. -/
theorem pyRound_one_sub (p : ℚ) : pyRound 4 (1 - p) = 1 - pyRound 4 p := by
  unfold pyRound
  have e1 : (1 - p) * 10 ^ 4 = ((10 ^ 4 : ℤ) : ℚ) - p * 10 ^ 4 := by
    push_cast
    ring
  rw [e1, roundHalfEven_reflect (10 ^ 4) (by norm_num)]
  push_cast
  field_simp
  norm_num

/-! ### Odds values and Python-style parsing

`odds` travels through the engine as a Python object that is either a
string (`"+110"`, `"-110"`, sometimes unsigned `"120"`) or a non-string
value (e.g. an int).  The fallback math functions only parse strings that
begin with an explicit sign; everything else is substituted by `-110`. -/

inductive OddsVal where
  | str (s : String)
  | int (n : ℤ)
deriving DecidableEq, Repr

/-- First character of a string, if any (Python `s.startswith(c)` for the
single-character prefixes used by the engine). -/
def startsWithChar (s : String) (c : Char) : Bool := s.data.head? = some c

def digitsToNat (l : List Char) : ℕ :=
  l.foldl (fun a c => a * 10 + (c.toNat - 48)) 0

def allDigits (l : List Char) : Bool := !l.isEmpty && l.all (fun c => c.isDigit)

/-- Python `int(s)` restricted to the shapes the engine feeds it: an
optional single leading sign followed by decimal digits parses; anything
else raises `ValueError`, modelled as `none`. -/
def pyParseInt (s : String) : Option ℤ :=
  match s.data with
  | [] => Option.none
  | c :: rest =>
    if c = '+' then
      if allDigits rest then some (digitsToNat rest : ℤ) else Option.none
    else if c = '-' then
      if allDigits rest then some (-(digitsToNat rest : ℤ)) else Option.none
    else
      if allDigits (c :: rest) then some (digitsToNat (c :: rest) : ℤ) else Option.none

/-- Python `str(odds)`. -/
def pyStr (o : OddsVal) : String :=
  match o with
  | .str s => s
  | .int n => toString n

/-- Python `str(odds).replace('+', '')`. -/
def removePlus (s : String) : String := ⟨s.data.filter (fun c => c ≠ '+')⟩

/-- The American odds integer the module-level fallback functions work
with: a string starting with an explicit sign is parsed with `int`
(`none` = `ValueError` raised, caught by the enclosing `except`); any
other value is substituted by `-110`
(`analysis_engine.py` lines 46-49 / 61-64 / 472-475 / 495-498). -/
def oddsIntValue (odds : OddsVal) : Option ℤ :=
  match odds with
  | .str s =>
    if startsWithChar s '+' || startsWithChar s '-' then pyParseInt s
    else some (-110)
  | .int _ => some (-110)

/-- `100/(o+100)` for positive odds, `|o|/(|o|+100)` for the rest
(`analysis_engine.py` lines 51-54). -/
def impliedFromValue (v : ℤ) : ℚ :=
  if v > 0 then 100 / ((v : ℚ) + 100)
  else ((|v| : ℤ) : ℚ) / (((|v| : ℤ) : ℚ) + 100)

/-- Module-level fallback `implied_probability`
(`analysis_engine.py` lines 43-56).  The bare `except` returns the
literal `0.5263`. -/
def implied_probability (odds : OddsVal) : ℚ :=
  match oddsIntValue odds with
  | some v => impliedFromValue v
  | Option.none => 0.5263

/-- Decimal odds conversion used by the Kelly functions
(`analysis_engine.py` lines 66-69). -/
def decimalOddsOf (v : ℤ) : ℚ :=
  if v > 0 then (v : ℚ) / 100 + 1
  else 100 / ((|v| : ℤ) : ℚ) + 1

/-- Module-level fallback `kelly_criterion`
(`analysis_engine.py` lines 58-74): Kelly `(p·d − 1)/(d − 1)` capped into
`[0, 0.25]` with a hard-coded cap; a parse failure or the
`ZeroDivisionError` raised by `100/abs(0)` is caught and returns `0.0`. -/
def kelly_criterion (prob : ℚ) (odds : OddsVal) : ℚ :=
  match oddsIntValue odds with
  | Option.none => 0
  | some v =>
    if v = 0 then 0
    else max 0 (min 0.25 ((prob * decimalOddsOf v - 1) / (decimalOddsOf v - 1)))

/-- Module-level fallback `true_odds_ev`
(`analysis_engine.py` lines 78-80). -/
def true_odds_ev (stake profit prob : ℚ) : ℚ :=
  prob * profit - (1 - prob) * stake

/-- Method `fallback_implied_probability`
(`analysis_engine.py` lines 469-482); textually identical to the
module-level fallback. -/
def fallback_implied_probability (odds : OddsVal) : ℚ :=
  match oddsIntValue odds with
  | some v => impliedFromValue v
  | Option.none => 0.5263

/-- Method `fallback_expected_value` (`analysis_engine.py` lines 484-490). -/
def fallback_expected_value (true_prob : ℚ) (odds : OddsVal) : ℚ :=
  true_prob - fallback_implied_probability odds

/-- Method `fallback_kelly_criterion` (`analysis_engine.py` lines
492-508): same as the module-level function but capped by the configured
`kelly_max_fraction`. -/
def fallback_kelly_criterion (capFraction : ℚ) (true_prob : ℚ) (odds : OddsVal) : ℚ :=
  match oddsIntValue odds with
  | Option.none => 0
  | some v =>
    if v = 0 then 0
    else max 0 (min capFraction ((true_prob * decimalOddsOf v - 1) / (decimalOddsOf v - 1)))

/-- Per-unit profit computed inside `wagerbrain_mathematical_analysis`
(`analysis_engine.py` lines 254-262): `int(str(odds).replace('+',''))`,
positive → `o/100`, negative → `100/|o|`; a `ValueError`/`TypeError`
falls back to `100/110`, but `odds == 0` raises `ZeroDivisionError`
which is NOT caught there (modelled as `none`, escalating to the outer
handler). -/
def profitResult (odds : OddsVal) : Option ℚ :=
  match pyParseInt (removePlus (pyStr odds)) with
  | some v =>
    if v > 0 then some ((v : ℚ) / 100)
    else if v = 0 then Option.none
    else some (100 / ((|v| : ℤ) : ℚ))
  | Option.none => some (100 / 110)

/-! ### Data model

Python dictionaries are embedded as structures; a key that may be absent
becomes an `Option` field.  String fields produced only by float
formatting (the f-string `note` of `analyze_recent_performance`) are not
re-rendered: their numeric payloads are already carried by sibling
fields, so they add no information to any result. -/

/-- A prop record as consumed by the engine (`prop_data` dict). -/
structure PropData where
  id : Option String
  player_name : Option String
  prop_type : Option String
  line_value : Option ℚ
  sport : Option String
  odds : Option OddsVal
deriving DecidableEq, Repr

/-- `player_stats` dict: `recent_averages` maps stat keys (`"avg_hits"`,
...) to numbers; `none` = key absent, `some []` = empty dict (both falsy
in Python). -/
structure PlayerStats where
  recent_averages : Option (List (String × ℚ))
  games_played : Option ℚ
  total_games : Option ℚ
deriving DecidableEq, Repr

/-- Opponent/pitching context; only `era` is ever read by the engine
(`whip`, `k_9` are carried along unread and omitted here). -/
structure OpponentData where
  era : Option ℚ
deriving DecidableEq, Repr

/-- Python truthiness of `player_stats.get('recent_averages')`: absent
key, `None`, or an empty dict are all falsy. -/
def noRecentAverages (stats : PlayerStats) : Bool :=
  match stats.recent_averages with
  | Option.none => true
  | some l => l.isEmpty

def avgKeyOf (pt : String) : String := "avg_" ++ pt

/-- `player_stats['recent_averages'].get(avg_key, line_value)`. -/
def recentAvgLookup (stats : PlayerStats) (pt : String) (lv : ℚ) : ℚ :=
  (((stats.recent_averages.getD []).lookup (avgKeyOf pt))).getD lv

/-- `confidence_thresholds` configuration dict. -/
structure ConfidenceThresholds where
  high : ℚ
  medium : ℚ
  low : ℚ
deriving DecidableEq, Repr

/-- `factor_weights` configuration dict. -/
structure FactorWeights where
  recent_form : ℚ
  opponent_strength : ℚ
  home_away : ℚ
  weather : ℚ
  rest_days : ℚ
  historical : ℚ
deriving DecidableEq, Repr

/-- `AnalysisConfig` dataclass (`analysis_engine.py` lines 139-165). -/
structure AnalysisConfig where
  confidence_thresholds : ConfidenceThresholds
  factor_weights : FactorWeights
  kelly_max_fraction : ℚ
  min_edge_threshold : ℚ
  monte_carlo_simulations : ℕ
  risk_free_rate : ℚ
deriving DecidableEq, Repr

/-- The `__post_init__` defaults of `AnalysisConfig`. -/
def defaultConfig : AnalysisConfig where
  confidence_thresholds := { high := 0.75, medium := 0.65, low := 0.55 }
  factor_weights :=
    { recent_form := 0.40, opponent_strength := 0.25, home_away := 0.15
      weather := 0.10, rest_days := 0.05, historical := 0.05 }
  kelly_max_fraction := 0.25
  min_edge_threshold := 0.01
  monte_carlo_simulations := 10000
  risk_free_rate := 0.02

/-- `WAGERBRAIN_AVAILABLE`: the WagerBrain package is not part of this
repository, so the import at the top of `analysis_engine.py` fails and
the module-level fallback definitions are bound. -/
def WAGERBRAIN_AVAILABLE : Bool := false

/-- Deterministic environment for the numpy/scipy routines the engine
calls.  `np.random.seed(42)` is re-issued before every simulation, so
`np.random.normal(loc, scale, n)` is a pure function of its arguments;
likewise `np.percentile`, `np.std` and `scipy.stats.norm.cdf` are pure
library functions.  They are modelled as unspecified but fixed
functions. -/
structure Env where
  npNormal : ℚ → ℚ → ℕ → List ℚ
  npPercentile : List ℚ → ℚ → ℚ
  npStd : List ℚ → ℚ
  scipyAvailable : Bool
  normCdf : ℚ → ℚ → ℚ → ℚ

/-- Result dict of `wagerbrain_statistical_analysis`. -/
structure StatResult where
  volatility : ℚ
  confidence_interval : Option (ℚ × ℚ)
  z_score : Option ℚ
  probability_over : Option ℚ
  probability_under : Option ℚ
  standard_deviation : Option ℚ
  recent_average : Option ℚ
  note : Option String
  error : Option String
deriving DecidableEq, Repr

/-- Result dict of `run_monte_carlo_simulation`. -/
structure MCResult where
  hit_rate_over : ℚ
  hit_rate_under : Option ℚ
  simulations : Option ℕ
  percentiles : Option (ℚ × ℚ × ℚ × ℚ × ℚ)
  expected_outcome : Option ℚ
  simulation_std : Option ℚ
  note : Option String
  error : Option String
deriving DecidableEq, Repr

/-- The `wagerbrain_analysis` block attached to an `AnalysisResult`. -/
structure WagerbrainBlock where
  expected_value : Option ℚ
  kelly_criterion : Option ℚ
  implied_probability : Option ℚ
  true_probability : Option ℚ
  edge : Option ℚ
  sharpe_ratio : Option ℚ
  statistical_analysis : Option StatResult
  monte_carlo : Option MCResult
  wagerbrain_engine : String
  error : Option String
deriving DecidableEq, Repr

/-- Result dict of `analyze_recent_performance`. -/
structure RecentResult where
  score : ℚ
  hit_rate : Option ℚ
  recent_average : Option ℚ
  line_value : Option ℚ
  trend : Option String
  avg_vs_line_ratio : Option ℚ
  games_analyzed : Option (Option ℚ)
  note : Option String
  error : Option String
deriving DecidableEq, Repr

/-- Result dict of `analyze_historical_trends`.  `season_average` and
`historical_ratio` hold `some none` when the key is present with Python
value `None`. -/
structure HistResult where
  score : ℚ
  season_average : Option (Option ℚ)
  line_value : Option ℚ
  historical_ratio : Option (Option ℚ)
  consistency : Option ℚ
  sample_size : Option (Option ℚ)
  trend : Option String
  note : Option String
  error : Option String
deriving DecidableEq, Repr

/-- Result dict of `analyze_opponent_matchup`. -/
structure OppResult where
  score : ℚ
  difficulty : Option String
  opponent_stats : Option OpponentData
  note : Option String
  error : Option String
deriving DecidableEq, Repr

/-- Result dict of `analyze_situational_factors` (the `components`
sub-dict is flattened into the four fields). -/
structure SitResult where
  score : ℚ
  home_away : Option ℚ
  weather : Option ℚ
  rest : Option ℚ
  form : Option ℚ
  note : Option String
  error : Option String
deriving DecidableEq, Repr

/-- The engine's output unit (`analysis_result` dict). -/
structure AnalysisResult where
  prop_id : Option String
  player_name : String
  prop_type : String
  line_value : ℚ
  sport : String
  confidence_score : ℚ
  recommendation : String
  recent_performance : RecentResult
  historical_trends : HistResult
  opponent_matchup : OppResult
  situational_factors : SitResult
  wagerbrain_analysis : WagerbrainBlock
  error : Option String
  analyzed_at : String
deriving DecidableEq, Repr

/-! ### Statistical model and Monte Carlo simulation -/

/-- The closed-form step approximation used when scipy is unavailable
(`analysis_engine.py` lines 326-338). -/
def stepProbOver (z : ℚ) : ℚ :=
  if z > 2 then 0.025
  else if z > 1 then 0.16
  else if z > 0 then 0.5 - z * 0.34
  else if z > -1 then 0.5 + |z| * 0.34
  else if z > -2 then 0.84
  else 0.975

/-- `wagerbrain_statistical_analysis` (`analysis_engine.py` lines
295-352).  A missing `prop_type`/`line_value` key raises `KeyError`,
caught by the method's own handler (the `error` payload). -/
def wagerbrain_statistical_analysis (env : Env) (stats : PlayerStats)
    (prop : PropData) : StatResult :=
  if noRecentAverages stats then
    { volatility := 0.1, confidence_interval := some (0, 0)
      z_score := Option.none, probability_over := Option.none
      probability_under := Option.none, standard_deviation := Option.none
      recent_average := Option.none, note := some "insufficient_data"
      error := Option.none }
  else
    match prop.prop_type, prop.line_value with
    | some pt, some lv =>
      let ra := recentAvgLookup stats pt lv
      let vol := max 0.05 (min 0.5 (if lv > 0 then |ra - lv| / lv else 0.1))
      let sd := ra * vol
      let z := if sd > 0 then (lv - ra) / sd else 0
      let pOver := if env.scipyAvailable then 1 - env.normCdf lv ra sd else stepProbOver z
      { volatility := pyRound 3 vol
        confidence_interval := some (pyRound 2 (max 0 (ra - 1.96 * sd)), pyRound 2 (ra + 1.96 * sd))
        z_score := some (pyRound 3 z)
        probability_over := some (pyRound 4 pOver)
        probability_under := some (pyRound 4 (1 - pOver))
        standard_deviation := some (pyRound 3 sd)
        recent_average := some (pyRound 2 ra)
        note := Option.none, error := Option.none }
    | _, _ =>
      { volatility := 0.1, confidence_interval := Option.none
        z_score := Option.none, probability_over := Option.none
        probability_under := Option.none, standard_deviation := Option.none
        recent_average := Option.none, note := Option.none
        error := some "KeyError" }

/-- `run_monte_carlo_simulation` (`analysis_engine.py` lines 354-400).
The error dict is produced when `np.random.normal` rejects a negative
scale (`recent_avg < 0`) or when `simulations = 0` makes the percentile
computation fail; both are caught by the method's handler. -/
def run_monte_carlo_simulation (env : Env) (cfg : AnalysisConfig)
    (prop : PropData) (stats : PlayerStats) (simulations : Option ℕ) : MCResult :=
  let sims := simulations.getD cfg.monte_carlo_simulations
  if noRecentAverages stats then
    { hit_rate_over := 0.5, hit_rate_under := Option.none
      simulations := some 0, percentiles := Option.none
      expected_outcome := Option.none, simulation_std := Option.none
      note := some "insufficient_data", error := Option.none }
  else
    match prop.prop_type, prop.line_value with
    | some pt, some lv =>
      let ra := recentAvgLookup stats pt lv
      let sd := ra * 0.2
      if sd < 0 ∨ sims = 0 then
        { hit_rate_over := 0.5, hit_rate_under := Option.none
          simulations := Option.none, percentiles := Option.none
          expected_outcome := Option.none, simulation_std := Option.none
          note := Option.none, error := some "simulation error" }
      else
        let samples := env.npNormal ra sd sims
        let hr : ℚ := ((samples.filter (fun x => x > lv)).length : ℚ) / (sims : ℚ)
        { hit_rate_over := pyRound 4 hr
          hit_rate_under := some (pyRound 4 (1 - hr))
          simulations := some sims
          percentiles := some (pyRound 2 (env.npPercentile samples 5),
            pyRound 2 (env.npPercentile samples 25),
            pyRound 2 (env.npPercentile samples 50),
            pyRound 2 (env.npPercentile samples 75),
            pyRound 2 (env.npPercentile samples 95))
          expected_outcome := some (pyRound 2 ra)
          simulation_std := some (pyRound 3 (env.npStd samples))
          note := Option.none, error := Option.none }
    | _, _ =>
      { hit_rate_over := 0.5, hit_rate_under := Option.none
        simulations := Option.none, percentiles := Option.none
        expected_outcome := Option.none, simulation_std := Option.none
        note := Option.none, error := some "KeyError" }

/-- `calculate_sharpe_ratio` (`analysis_engine.py` lines 402-409). -/
def calculate_sharpe_ratio (cfg : AnalysisConfig) (expected_return volatility : ℚ) : ℚ :=
  if volatility = 0 then 0 else (expected_return - cfg.risk_free_rate) / volatility

/-! ### Confidence sub-analyses -/

/-- The ten-bucket hit-rate step function of
`analyze_recent_performance` (`analysis_engine.py` lines 530-549). -/
def hitRateBucket (ratio : ℚ) : ℚ :=
  if ratio ≥ 1.20 then 0.80
  else if ratio ≥ 1.15 then 0.75
  else if ratio ≥ 1.10 then 0.70
  else if ratio ≥ 1.05 then 0.65
  else if ratio ≥ 1.02 then 0.58
  else if ratio ≥ 0.98 then 0.52
  else if ratio ≥ 0.95 then 0.45
  else if ratio ≥ 0.90 then 0.38
  else if ratio ≥ 0.85 then 0.30
  else 0.25

/-- The qualitative trend label of `analyze_recent_performance`
(`analysis_engine.py` lines 551-561). -/
def trendLabel (ratio : ℚ) : String :=
  if ratio ≥ 1.15 then "strongly_positive"
  else if ratio ≥ 1.05 then "positive"
  else if ratio ≥ 0.95 then "stable"
  else if ratio ≥ 0.85 then "negative"
  else "strongly_negative"

/-- `analyze_recent_performance` (`analysis_engine.py` lines 511-576).
The formatted `note` string of the success branch renders values already
carried by the `recent_average`/`line_value`/`avg_vs_line_ratio`
fields and is left as `none`. -/
def analyze_recent_performance (stats : PlayerStats) (prop : PropData) : RecentResult :=
  if noRecentAverages stats then
    { score := 0.5, hit_rate := Option.none, recent_average := Option.none
      line_value := Option.none, trend := some "insufficient_data"
      avg_vs_line_ratio := Option.none, games_analyzed := Option.none
      note := some "No recent averages available", error := Option.none }
  else
    match prop.prop_type, prop.line_value with
    | some pt, some lv =>
      match (stats.recent_averages.getD []).lookup (avgKeyOf pt) with
      | Option.none =>
        { score := 0.5, hit_rate := Option.none, recent_average := Option.none
          line_value := Option.none, trend := some "no_matching_stat"
          avg_vs_line_ratio := Option.none, games_analyzed := Option.none
          note := some ("No " ++ pt ++ " average found"), error := Option.none }
      | some ra =>
        let ratio := if lv > 0 then ra / lv else 0
        let hr := hitRateBucket ratio
        { score := hr, hit_rate := some hr, recent_average := some ra
          line_value := some lv, trend := some (trendLabel ratio)
          avg_vs_line_ratio := some ratio
          games_analyzed := some stats.games_played
          note := Option.none, error := Option.none }
    | _, _ =>
      { score := 0.5, hit_rate := Option.none, recent_average := Option.none
        line_value := Option.none, trend := Option.none
        avg_vs_line_ratio := Option.none, games_analyzed := Option.none
        note := Option.none, error := some "KeyError" }

/-- `analyze_historical_trends` (`analysis_engine.py` lines 578-613).
`historical_ratio` reports `None` whenever `season_avg` is falsy
(absent key or the value 0). -/
def analyze_historical_trends (stats : PlayerStats) (prop : PropData) : HistResult :=
  if noRecentAverages stats then
    { score := 0.5, season_average := Option.none, line_value := Option.none
      historical_ratio := Option.none, consistency := Option.none
      sample_size := Option.none, trend := some "insufficient_data"
      note := Option.none, error := Option.none }
  else
    match prop.prop_type, prop.line_value with
    | some pt, some lv =>
      let consistency_score : ℚ := 0.7
      match (stats.recent_averages.getD []).lookup (avgKeyOf pt) with
      | some season_avg =>
        let historical_ratio := if lv > 0 then season_avg / lv else 0
        let historical_score := min (max (historical_ratio * 0.5) 0.2) 0.8
        { score := historical_score * 0.7 + consistency_score * 0.3
          season_average := some (some season_avg), line_value := some lv
          historical_ratio := some (if season_avg = 0 then Option.none else some historical_ratio)
          consistency := some consistency_score
          sample_size := some stats.total_games, trend := Option.none
          note := some "Based on available season averages", error := Option.none }
      | Option.none =>
        { score := 0.5 * 0.7 + consistency_score * 0.3
          season_average := some Option.none, line_value := some lv
          historical_ratio := some Option.none
          consistency := some consistency_score
          sample_size := some stats.total_games, trend := Option.none
          note := some "Based on available season averages", error := Option.none }
    | _, _ =>
      { score := 0.5, season_average := Option.none, line_value := Option.none
        historical_ratio := Option.none, consistency := Option.none
        sample_size := Option.none, trend := Option.none
        note := Option.none, error := some "KeyError" }

/-- Base matchup rates of `analyze_mlb_pitching_matchup`
(`analysis_engine.py` lines 637-645), i.e. `matchup_scores.get(pt, 0.50)`. -/
def matchupBaseScore (pt : String) : ℚ :=
  if pt = "hits" then 0.55
  else if pt = "runs" then 0.52
  else if pt = "rbis" then 0.50
  else if pt = "strikeouts" then 0.48
  else if pt = "home_runs" then 0.45
  else 0.50

/-- `analyze_mlb_pitching_matchup` (`analysis_engine.py` lines 631-666). -/
def analyze_mlb_pitching_matchup (pitching : OpponentData) (prop : PropData) : OppResult :=
  match prop.prop_type with
  | some pt =>
    let base := matchupBaseScore pt
    let adjusted : ℚ × String :=
      match pitching.era with
      | some era =>
        if era > 4.5 then (base + 0.1, "favorable")
        else if era < 3.5 then (base - 0.1, "difficult")
        else (base, "moderate")
      | Option.none => (base, "moderate")
    { score := max 0.2 (min 0.8 adjusted.1)
      difficulty := some adjusted.2, opponent_stats := some pitching
      note := some ("MLB " ++ pt ++ " matchup analysis"), error := Option.none }
  | Option.none =>
    { score := 0.5, difficulty := Option.none, opponent_stats := Option.none
      note := Option.none, error := some "KeyError" }

/-- `analyze_opponent_matchup` (`analysis_engine.py` lines 615-629).
`none` models a falsy `opponent_data` (absent or empty dict). -/
def analyze_opponent_matchup (opponent : Option OpponentData) (prop : PropData) : OppResult :=
  match opponent with
  | Option.none =>
    { score := 0.5, difficulty := Option.none, opponent_stats := Option.none
      note := some "no_opponent_data", error := Option.none }
  | some od =>
    match prop.sport with
    | some sp =>
      if sp = "MLB" then analyze_mlb_pitching_matchup od prop
      else
        { score := 0.5, difficulty := Option.none, opponent_stats := Option.none
          note := some (sp ++ "_analysis_placeholder"), error := Option.none }
    | Option.none =>
      { score := 0.5, difficulty := Option.none, opponent_stats := Option.none
        note := Option.none, error := some "KeyError" }

/-- `analyze_situational_factors` (`analysis_engine.py` lines 668-704).
`stats` is accepted but never read by the source body. -/
def analyze_situational_factors (prop : PropData) (stats : PlayerStats) : SitResult :=
  match prop.sport with
  | some sp =>
    let home_away_score : ℚ := 0.5
    let weather_score : ℚ := if sp = "MLB" ∨ sp = "NFL" ∨ sp = "GOLF" then 0.55 else 0.5
    let rest_score : ℚ := 0.5
    let form_score : ℚ := 0.5
    let situational_score :=
      home_away_score * 0.3 + weather_score * 0.25 + rest_score * 0.25 + form_score * 0.2
    { score := max 0.2 (min 0.8 situational_score)
      home_away := some home_away_score, weather := some weather_score
      rest := some rest_score, form := some form_score
      note := some (sp ++ " situational analysis"), error := Option.none }
  | Option.none =>
    { score := 0.5, home_away := Option.none, weather := Option.none
      rest := Option.none, form := Option.none
      note := Option.none, error := some "KeyError" }

/-- `calculate_confidence_score` (`analysis_engine.py` lines 706-726). -/
def calculate_confidence_score (cfg : AnalysisConfig) (recent : RecentResult)
    (historical : HistResult) (opponent : OppResult) (situational : SitResult) : ℚ :=
  let w := cfg.factor_weights
  max 0 (min 1
    (recent.score * w.recent_form + historical.score * w.historical +
      opponent.score * w.opponent_strength +
      situational.score * (w.home_away + w.weather + w.rest_days)))

/-! ### Wager-math engine -/

/-- `fallback_mathematical_analysis` (`analysis_engine.py` lines
448-466), reached when the main mathematical analysis raises. -/
def fallback_mathematical_analysis (cfg : AnalysisConfig) (prop : PropData)
    (confidence_score : ℚ) : WagerbrainBlock :=
  let odds := prop.odds.getD (OddsVal.str "-110")
  let implied_prob := fallback_implied_probability odds
  let expected_value := fallback_expected_value confidence_score odds
  let kelly_size := fallback_kelly_criterion cfg.kelly_max_fraction confidence_score odds
  { expected_value := some (pyRound 4 expected_value)
    kelly_criterion := some (pyRound 4 kelly_size)
    implied_probability := some (pyRound 4 implied_prob)
    true_probability := some (pyRound 4 confidence_score)
    edge := some (pyRound 4 (confidence_score - implied_prob))
    sharpe_ratio := some 0
    statistical_analysis := some
      { volatility := 0.1, confidence_interval := Option.none
        z_score := Option.none, probability_over := Option.none
        probability_under := Option.none, standard_deviation := Option.none
        recent_average := Option.none, note := Option.none, error := Option.none }
    monte_carlo := some
      { hit_rate_over := confidence_score, hit_rate_under := Option.none
        simulations := Option.none, percentiles := Option.none
        expected_outcome := Option.none, simulation_std := Option.none
        note := Option.none, error := Option.none }
    wagerbrain_engine := "fallback", error := Option.none }

/-- `wagerbrain_mathematical_analysis` (`analysis_engine.py` lines
241-293).  A missing `line_value` (`KeyError`) or a zero odds value (the
uncaught `ZeroDivisionError` of the profit computation) escalates to the
outer handler, which returns the fallback analysis. -/
def wagerbrain_mathematical_analysis (env : Env) (cfg : AnalysisConfig)
    (prop : PropData) (confidence_score : ℚ) (stats : PlayerStats) : WagerbrainBlock :=
  match prop.line_value with
  | Option.none => fallback_mathematical_analysis cfg prop confidence_score
  | some _ =>
    let odds := prop.odds.getD (OddsVal.str "-110")
    match profitResult odds with
    | Option.none => fallback_mathematical_analysis cfg prop confidence_score
    | some profit =>
      let implied_prob := implied_probability odds
      let true_probability := confidence_score
      let expected_value := true_odds_ev 1 profit true_probability
      let kelly_bet_size := kelly_criterion true_probability odds
      let statistical := wagerbrain_statistical_analysis env stats prop
      let sharpe := calculate_sharpe_ratio cfg expected_value statistical.volatility
      let monte_carlo := run_monte_carlo_simulation env cfg prop stats Option.none
      { expected_value := some (pyRound 4 expected_value)
        kelly_criterion := some (pyRound 4 kelly_bet_size)
        implied_probability := some (pyRound 4 implied_prob)
        true_probability := some (pyRound 4 true_probability)
        edge := some (pyRound 4 (true_probability - implied_prob))
        sharpe_ratio := some (pyRound 3 sharpe)
        statistical_analysis := some statistical
        monte_carlo := some monte_carlo
        wagerbrain_engine := if WAGERBRAIN_AVAILABLE then "active" else "fallback"
        error := Option.none }

/-- `generate_wagerbrain_recommendation` (`analysis_engine.py` lines
411-435): the `.get(key, 0)` reads are `Option.getD 0`. -/
def generate_wagerbrain_recommendation (cfg : AnalysisConfig)
    (confidence_score : ℚ) (wb : WagerbrainBlock) : String :=
  let expected_value := wb.expected_value.getD 0
  let kelly_size := wb.kelly_criterion.getD 0
  let edge := wb.edge.getD 0
  if expected_value > 0.05 ∧ edge > 0.03 ∧ kelly_size > 0.01 then
    if confidence_score ≥ cfg.confidence_thresholds.high then "STRONG_BET"
    else if confidence_score ≥ cfg.confidence_thresholds.medium then "MODERATE_BET"
    else "WEAK_BET"
  else if expected_value > 0.02 ∧ edge > cfg.min_edge_threshold then "WEAK_BET"
  else if expected_value < -0.03 ∨ edge < -0.05 then "STRONG_AVOID"
  else "AVOID"

/-- `generate_basic_recommendation` (`analysis_engine.py` lines 437-446);
only reachable when the recommendation generator itself raises. -/
def generate_basic_recommendation (cfg : AnalysisConfig) (confidence_score : ℚ) : String :=
  if confidence_score ≥ cfg.confidence_thresholds.high then "STRONG_BET"
  else if confidence_score ≥ cfg.confidence_thresholds.medium then "MODERATE_BET"
  else if confidence_score ≥ cfg.confidence_thresholds.low then "WEAK_BET"
  else "AVOID"

/-! ### Top-level analysis and batch processing -/

/-- `create_error_analysis` (`analysis_engine.py` lines 728-747). -/
def create_error_analysis (prop : PropData) (error_msg : String)
    (now : String) : AnalysisResult :=
  { prop_id := prop.id
    player_name := prop.player_name.getD "Unknown"
    prop_type := prop.prop_type.getD "Unknown"
    line_value := prop.line_value.getD 0
    sport := prop.sport.getD "Unknown"
    confidence_score := 0
    recommendation := "ERROR"
    recent_performance :=
      { score := 0, hit_rate := Option.none, recent_average := Option.none
        line_value := Option.none, trend := Option.none
        avg_vs_line_ratio := Option.none, games_analyzed := Option.none
        note := Option.none, error := some error_msg }
    historical_trends :=
      { score := 0, season_average := Option.none, line_value := Option.none
        historical_ratio := Option.none, consistency := Option.none
        sample_size := Option.none, trend := Option.none
        note := Option.none, error := some error_msg }
    opponent_matchup :=
      { score := 0, difficulty := Option.none, opponent_stats := Option.none
        note := Option.none, error := some error_msg }
    situational_factors :=
      { score := 0, home_away := Option.none, weather := Option.none
        rest := Option.none, form := Option.none
        note := Option.none, error := some error_msg }
    wagerbrain_analysis :=
      { expected_value := Option.none, kelly_criterion := Option.none
        implied_probability := Option.none, true_probability := Option.none
        edge := Option.none, sharpe_ratio := Option.none
        statistical_analysis := Option.none, monte_carlo := Option.none
        wagerbrain_engine := "error", error := some error_msg }
    error := some error_msg
    analyzed_at := now }

/-- The first `KeyError` raised by `analyze_prop`'s dictionary accesses,
in Python evaluation order (`player_name`, `prop_type`, `line_value` in
the log line; `sport` when building the result). -/
def firstMissingKeyMsg (prop : PropData) : String :=
  if prop.player_name.isNone then "KeyError: player_name"
  else if prop.prop_type.isNone then "KeyError: prop_type"
  else if prop.line_value.isNone then "KeyError: line_value"
  else "KeyError: sport"

/-- `analyze_prop` (`analysis_engine.py` lines 188-239).  `now` is the
`datetime.now().isoformat()` timestamp observed during the call. -/
def analyze_prop (env : Env) (cfg : AnalysisConfig) (now : String)
    (prop : PropData) (stats : PlayerStats) (opponent : Option OpponentData) : AnalysisResult :=
  match prop.player_name, prop.prop_type, prop.line_value, prop.sport with
  | some pn, some pt, some lv, some sp =>
    let recent := analyze_recent_performance stats prop
    let historical := analyze_historical_trends stats prop
    let opponentA := analyze_opponent_matchup opponent prop
    let situational := analyze_situational_factors prop stats
    let confidence := calculate_confidence_score cfg recent historical opponentA situational
    let wb := wagerbrain_mathematical_analysis env cfg prop confidence stats
    let recommendation := generate_wagerbrain_recommendation cfg confidence wb
    { prop_id := prop.id, player_name := pn, prop_type := pt
      line_value := lv, sport := sp
      confidence_score := pyRound 3 confidence
      recommendation := recommendation
      recent_performance := recent, historical_trends := historical
      opponent_matchup := opponentA, situational_factors := situational
      wagerbrain_analysis := wb
      error := Option.none, analyzed_at := now }
  | _, _, _, _ => create_error_analysis prop (firstMissingKeyMsg prop) now

/-- The confidence score `analyze_prop` computes internally (before the
3-decimal rounding applied to the reported `confidence_score` field). -/
def confidenceOf (cfg : AnalysisConfig) (prop : PropData) (stats : PlayerStats)
    (opponent : Option OpponentData) : ℚ :=
  calculate_confidence_score cfg (analyze_recent_performance stats prop)
    (analyze_historical_trends stats prop) (analyze_opponent_matchup opponent prop)
    (analyze_situational_factors prop stats)

/-- `{}` default for `player_stats_dict.get(name, {})`. -/
def emptyStats : PlayerStats :=
  { recent_averages := Option.none, games_played := Option.none, total_games := Option.none }

/-- `player_stats_dict.get(prop_data.get('player_name'), {})`. -/
def statsForProp (statsBy : List (String × PlayerStats)) (prop : PropData) : PlayerStats :=
  match prop.player_name with
  | some n => (statsBy.lookup n).getD emptyStats
  | Option.none => emptyStats

/-- `opponent_data_dict.get(player_name) if opponent_data_dict else None`. -/
def oppForProp (oppBy : Option (List (String × OpponentData))) (prop : PropData) :
    Option OpponentData :=
  match oppBy, prop.player_name with
  | some d, some n => d.lookup n
  | _, _ => Option.none

/-- The enumeration loop of `batch_analyze_props`; `clock i` is the
timestamp observed while analyzing the `i`-th prop. -/
def batchAux (env : Env) (cfg : AnalysisConfig) (clock : ℕ → String)
    (statsBy : List (String × PlayerStats))
    (oppBy : Option (List (String × OpponentData))) :
    ℕ → List PropData → List AnalysisResult
  | _, [] => []
  | i, p :: ps =>
    analyze_prop env cfg (clock i) p (statsForProp statsBy p) (oppForProp oppBy p) ::
      batchAux env cfg clock statsBy oppBy (i + 1) ps

/-- `batch_analyze_props` (`analysis_engine.py` lines 750-777);
`enumerate(props_list, 1)` starts the index at 1. -/
def batch_analyze_props (env : Env) (cfg : AnalysisConfig) (clock : ℕ → String)
    (props : List PropData) (statsBy : List (String × PlayerStats))
    (oppBy : Option (List (String × OpponentData))) : List AnalysisResult :=
  batchAux env cfg clock statsBy oppBy 1 props

/-! ### Spec-side definitions (written from the specification's words,
to be compared against the source embedding) -/

/-- The recommendation state machine exactly as the specification words
it: first-match-wins over expected value, edge, Kelly fraction and the
configured confidence thresholds. -/
def specRecommendation (ev edge kelly conf high med minEdge : ℚ) : String :=
  if ev > 0.05 ∧ edge > 0.03 ∧ kelly > 0.01 then
    if conf ≥ high then "STRONG_BET"
    else if conf ≥ med then "MODERATE_BET"
    else "WEAK_BET"
  else if ev > 0.02 ∧ edge > minEdge then "WEAK_BET"
  else if ev < -0.03 ∨ edge < -0.05 then "STRONG_AVOID"
  else "AVOID"

/-- The ten-bucket step function exactly as the specification lists it:
thresholds 1.20/1.15/1.10/1.05/1.02/0.98/0.95/0.90/0.85 mapping to
hit-rates 0.80/0.75/0.70/0.65/0.58/0.52/0.45/0.38/0.30/0.25. -/
def specTenBucketHitRate (ratio : ℚ) : ℚ :=
  if ratio ≥ 1.20 then 0.80
  else if ratio ≥ 1.15 then 0.75
  else if ratio ≥ 1.10 then 0.70
  else if ratio ≥ 1.05 then 0.65
  else if ratio ≥ 1.02 then 0.58
  else if ratio ≥ 0.98 then 0.52
  else if ratio ≥ 0.95 then 0.45
  else if ratio ≥ 0.90 then 0.38
  else if ratio ≥ 0.85 then 0.30
  else 0.25

/-! ### Concrete fixtures for witnesses and counterexamples -/

/-- A concrete instantiation of the library environment (any fixed
functions will do: the fixed seed makes the real one deterministic). -/
def testEnv : Env where
  npNormal := fun a _ n => List.replicate n a
  npPercentile := fun l _ => l.headD 0
  npStd := fun _ => 0
  scipyAvailable := false
  normCdf := fun _ _ _ => 0

/-- The sample prop of the source's own test harness
(`analysis_engine.py` lines 1046-1053). -/
def cProp : PropData where
  id := some "prop_001"
  player_name := some "Mike Trout"
  prop_type := some "hits"
  line_value := some (3/2)
  sport := some "MLB"
  odds := some (.str "+110")

/-- The sample player stats of the source's own test harness
(`analysis_engine.py` lines 1056-1064). -/
def cStats : PlayerStats where
  recent_averages := some [("avg_hits", 9/5), ("avg_runs", 6/5), ("avg_rbis", 3/2)]
  games_played := some 15
  total_games := some 140

/-- A small-simulation configuration used by concrete fixtures. -/
def smallCfg : AnalysisConfig := { defaultConfig with monte_carlo_simulations := 2 }

/-- A configuration with a Kelly cap below the hard-coded 0.25. -/
def c3cfg : AnalysisConfig :=
  { defaultConfig with kelly_max_fraction := 1/10, monte_carlo_simulations := 2 }

/-- A prop quoted at unsigned odds `"120"`. -/
def c10prop : PropData where
  id := Option.none
  player_name := some "X"
  prop_type := some "hits"
  line_value := some (3/2)
  sport := some "MLB"
  odds := some (.str "120")

/-- A prop quoted at positive odds `"+200"`. -/
def c3prop : PropData where
  id := Option.none
  player_name := some "X"
  prop_type := some "hits"
  line_value := some (3/2)
  sport := some "MLB"
  odds := some (.str "+200")

/-- Single-statistic stats record used in the monotonicity claim. -/
def mkStats (pt : String) (a : ℚ) (gp tg : Option ℚ) : PlayerStats where
  recent_averages := some [(avgKeyOf pt, a)]
  games_played := gp
  total_games := tg

/-- A malformed prop lacking the required `player_name` key. -/
def badProp : PropData where
  id := Option.none
  player_name := Option.none
  prop_type := some "hits"
  line_value := some 1
  sport := some "MLB"
  odds := Option.none

/-! ### Shared helper lemmas -/

theorem gen_rec_eq_spec (cfg : AnalysisConfig) (conf : ℚ) (wb : WagerbrainBlock) :
    generate_wagerbrain_recommendation cfg conf wb =
      specRecommendation (wb.expected_value.getD 0) (wb.edge.getD 0)
        (wb.kelly_criterion.getD 0) conf cfg.confidence_thresholds.high
        cfg.confidence_thresholds.medium cfg.min_edge_threshold := rfl

theorem decimalOddsOf_sub_one_pos (v : ℤ) (hv : v ≠ 0) : 0 < decimalOddsOf v - 1 := by
  unfold decimalOddsOf
  split_ifs with h
  · have hv' : (0 : ℚ) < (v : ℚ) := by exact_mod_cast h
    have := div_pos hv' (by norm_num : (0:ℚ) < 100)
    linarith
  · have hva : (0 : ℚ) < ((|v| : ℤ) : ℚ) := by
      exact_mod_cast abs_pos.mpr hv
    have := div_pos (by norm_num : (0:ℚ) < 100) hva
    linarith

theorem impliedFromValue_eq_inv (v : ℤ) (hv : v ≠ 0) :
    impliedFromValue v = 1 / decimalOddsOf v := by
  unfold impliedFromValue decimalOddsOf
  split_ifs with h
  · have hv' : (0 : ℚ) < (v : ℚ) := by exact_mod_cast h
    field_simp
  · have hva : (0 : ℚ) < ((|v| : ℤ) : ℚ) := by
      exact_mod_cast abs_pos.mpr hv
    field_simp
    exact Or.inl (by ring)

/-- The module-level Kelly function always lands in `[0, 1/4]`. -/
theorem kelly_criterion_bounds (p : ℚ) (odds : OddsVal) :
    0 ≤ kelly_criterion p odds ∧ kelly_criterion p odds ≤ 1/4 := by
  cases h : oddsIntValue odds with
  | none =>
    simp only [kelly_criterion, h]
    norm_num
  | some v =>
    simp only [kelly_criterion, h]
    by_cases hv : v = 0
    · rw [if_pos hv]
      norm_num
    · rw [if_neg hv]
      constructor
      · exact le_max_left _ _
      · exact max_le (by norm_num) (le_trans (min_le_left _ _) (by norm_num))

/-- The configurable fallback Kelly function lands in `[0, cap]` for any
nonnegative cap. -/
theorem fallback_kelly_criterion_bounds (cap p : ℚ) (odds : OddsVal) (hc : 0 ≤ cap) :
    0 ≤ fallback_kelly_criterion cap p odds ∧ fallback_kelly_criterion cap p odds ≤ cap := by
  cases h : oddsIntValue odds with
  | none =>
    simp only [fallback_kelly_criterion, h]
    exact ⟨le_refl 0, hc⟩
  | some v =>
    simp only [fallback_kelly_criterion, h]
    by_cases hv : v = 0
    · rw [if_pos hv]
      exact ⟨le_refl 0, hc⟩
    · rw [if_neg hv]
      constructor
      · exact le_max_left _ _
      · exact max_le hc (min_le_left _ _)

/-- When the bettor's probability does not beat the implied probability,
the raw Kelly value is nonpositive and the clamp returns exactly 0. -/
theorem kelly_zero_of_no_edge (p : ℚ) (odds : OddsVal) (v : ℤ)
    (ho : oddsIntValue odds = some v) (hv : v ≠ 0)
    (hp : p ≤ implied_probability odds) :
    (p * decimalOddsOf v - 1) / (decimalOddsOf v - 1) ≤ 0 ∧
      kelly_criterion p odds = 0 := by
  have hd1 : 0 < decimalOddsOf v - 1 := decimalOddsOf_sub_one_pos v hv
  have hd0 : 0 < decimalOddsOf v := by linarith
  have hip : implied_probability odds = 1 / decimalOddsOf v := by
    simp only [implied_probability, ho]
    exact impliedFromValue_eq_inv v hv
  have hpd : p * decimalOddsOf v - 1 ≤ 0 := by
    have h1 : p * decimalOddsOf v ≤ (1 / decimalOddsOf v) * decimalOddsOf v := by
      have hp' : p ≤ 1 / decimalOddsOf v := by rw [hip] at hp; exact hp
      exact mul_le_mul_of_nonneg_right hp' (le_of_lt hd0)
    rw [one_div_mul_cancel (ne_of_gt hd0)] at h1
    linarith
  have hraw : (p * decimalOddsOf v - 1) / (decimalOddsOf v - 1) ≤ 0 := by
    rw [div_nonpos_iff]
    exact Or.inr ⟨hpd, le_of_lt hd1⟩
  refine ⟨hraw, ?_⟩
  simp only [kelly_criterion, ho]
  rw [if_neg hv]
  have hmin : min (0.25 : ℚ) ((p * decimalOddsOf v - 1) / (decimalOddsOf v - 1)) =
      (p * decimalOddsOf v - 1) / (decimalOddsOf v - 1) :=
    min_eq_right (le_trans hraw (by norm_num))
  rw [hmin]
  exact max_eq_left hraw

theorem pyRound_eq_of_int (n : ℕ) (x : ℚ) (m : ℤ) (h : x * 10 ^ n = (m : ℚ)) :
    pyRound n x = (m : ℚ) / 10 ^ n := by
  rw [pyRound, h, roundHalfEven_intCast]

theorem pyRound4_le_quarter (x : ℚ) (h : x ≤ 1/4) : pyRound 4 x ≤ 1/4 := by
  have h1 : x ≤ ((2500 : ℤ) : ℚ) / 10 ^ 4 := by push_cast; linarith
  have h2 := pyRound_le 4 x 2500 h1
  have h3 : ((2500 : ℤ) : ℚ) / 10 ^ 4 = 1/4 := by norm_num
  linarith [h2, h3.le]

/-- The fallback Kelly output is nonnegative regardless of the cap. -/
theorem fallback_kelly_criterion_nonneg (cap p : ℚ) (odds : OddsVal) :
    0 ≤ fallback_kelly_criterion cap p odds := by
  cases h : oddsIntValue odds with
  | none => simp only [fallback_kelly_criterion, h]; exact le_refl 0
  | some v =>
    simp only [fallback_kelly_criterion, h]
    by_cases hv : v = 0
    · rw [if_pos hv]
    · rw [if_neg hv]
      exact le_max_left _ _

/-- Field shape of the primary path of
`wagerbrain_mathematical_analysis`. -/
theorem wagerbrain_math_fields (env : Env) (cfg : AnalysisConfig) (prop : PropData)
    (conf : ℚ) (stats : PlayerStats) (lv pr : ℚ)
    (hl : prop.line_value = some lv)
    (hp : profitResult (prop.odds.getD (OddsVal.str "-110")) = some pr) :
    (wagerbrain_mathematical_analysis env cfg prop conf stats).kelly_criterion =
      some (pyRound 4 (kelly_criterion conf (prop.odds.getD (OddsVal.str "-110")))) ∧
    (wagerbrain_mathematical_analysis env cfg prop conf stats).implied_probability =
      some (pyRound 4 (implied_probability (prop.odds.getD (OddsVal.str "-110")))) ∧
    (wagerbrain_mathematical_analysis env cfg prop conf stats).expected_value =
      some (pyRound 4 (true_odds_ev 1 pr conf)) ∧
    (wagerbrain_mathematical_analysis env cfg prop conf stats).edge =
      some (pyRound 4 (conf - implied_probability (prop.odds.getD (OddsVal.str "-110")))) := by
  simp only [wagerbrain_mathematical_analysis, hl, hp]
  exact ⟨trivial, trivial, trivial, trivial⟩

/-- Field shape of the fallback path of
`wagerbrain_mathematical_analysis`. -/
theorem wagerbrain_math_fallback_kelly (env : Env) (cfg : AnalysisConfig)
    (prop : PropData) (conf : ℚ) (stats : PlayerStats)
    (h : prop.line_value = Option.none ∨
        profitResult (prop.odds.getD (OddsVal.str "-110")) = Option.none) :
    (wagerbrain_mathematical_analysis env cfg prop conf stats).kelly_criterion =
      some (pyRound 4
        (fallback_kelly_criterion cfg.kelly_max_fraction conf
          (prop.odds.getD (OddsVal.str "-110")))) := by
  rcases h with h | h
  · simp only [wagerbrain_mathematical_analysis, h, fallback_mathematical_analysis]
  · cases hl : prop.line_value with
    | none => simp only [wagerbrain_mathematical_analysis, hl, fallback_mathematical_analysis]
    | some lv =>
      simp only [wagerbrain_mathematical_analysis, hl, h, fallback_mathematical_analysis]

theorem noRecentAvgs_false (stats : PlayerStats) (ras : List (String × ℚ))
    (hras : stats.recent_averages = some ras) (k : String) (a : ℚ)
    (ha : ras.lookup k = some a) : noRecentAverages stats = false := by
  simp only [noRecentAverages, hras]
  cases ras with
  | nil => simp [List.lookup] at ha
  | cons x xs => simp [List.isEmpty]

/-- Shape of the success branch of `wagerbrain_statistical_analysis`
when the stat key is present. -/
theorem stat_fields (env : Env) (stats : PlayerStats) (prop : PropData)
    (pt : String) (lv : ℚ) (ras : List (String × ℚ)) (a : ℚ)
    (hpt : prop.prop_type = some pt) (hlv : prop.line_value = some lv)
    (hras : stats.recent_averages = some ras)
    (ha : ras.lookup (avgKeyOf pt) = some a) :
    wagerbrain_statistical_analysis env stats prop =
      (let vol := max 0.05 (min 0.5 (if lv > 0 then |a - lv| / lv else 0.1))
       let sd := a * vol
       let z := if sd > 0 then (lv - a) / sd else 0
       let pOver := if env.scipyAvailable then 1 - env.normCdf lv a sd else stepProbOver z
       { volatility := pyRound 3 vol
         confidence_interval :=
           some (pyRound 2 (max 0 (a - 1.96 * sd)), pyRound 2 (a + 1.96 * sd))
         z_score := some (pyRound 3 z)
         probability_over := some (pyRound 4 pOver)
         probability_under := some (pyRound 4 (1 - pOver))
         standard_deviation := some (pyRound 3 sd)
         recent_average := some (pyRound 2 a)
         note := Option.none, error := Option.none }) := by
  have hne : noRecentAverages stats = false :=
    noRecentAvgs_false stats ras hras (avgKeyOf pt) a ha
  have hra : recentAvgLookup stats pt lv = a := by
    simp only [recentAvgLookup, hras, Option.getD, ha]
  simp only [wagerbrain_statistical_analysis, hne, Bool.false_eq_true, if_false, hpt,
    hlv, hra]

set_option maxHeartbeats 1000000 in
theorem hitRateBucket_ge (r : ℚ) :
    0.25 ≤ hitRateBucket r ∧ (0.85 ≤ r → 0.30 ≤ hitRateBucket r) ∧
    (0.90 ≤ r → 0.38 ≤ hitRateBucket r) ∧ (0.95 ≤ r → 0.45 ≤ hitRateBucket r) ∧
    (0.98 ≤ r → 0.52 ≤ hitRateBucket r) ∧ (1.02 ≤ r → 0.58 ≤ hitRateBucket r) ∧
    (1.05 ≤ r → 0.65 ≤ hitRateBucket r) ∧ (1.10 ≤ r → 0.70 ≤ hitRateBucket r) ∧
    (1.15 ≤ r → 0.75 ≤ hitRateBucket r) ∧ (1.20 ≤ r → 0.80 ≤ hitRateBucket r) := by
  unfold hitRateBucket
  split_ifs <;>
    refine ⟨by norm_num, ?_, ?_, ?_, ?_, ?_, ?_, ?_, ?_, ?_⟩ <;> intro <;> linarith

set_option maxHeartbeats 1000000 in
theorem hitRateBucket_mono {r1 r2 : ℚ} (h : r1 ≤ r2) :
    hitRateBucket r1 ≤ hitRateBucket r2 := by
  have hge := hitRateBucket_ge r2
  set B := hitRateBucket r2 with hB
  obtain ⟨hlb, h85, h90, h95, h98, h102, h105, h110, h115, h120⟩ := hge
  unfold hitRateBucket
  split_ifs with a1 a2 a3 a4 a5 a6 a7 a8 a9
  · exact h120 (by linarith)
  · exact h115 (by linarith)
  · exact h110 (by linarith)
  · exact h105 (by linarith)
  · exact h102 (by linarith)
  · exact h98 (by linarith)
  · exact h95 (by linarith)
  · exact h90 (by linarith)
  · exact h85 (by linarith)
  · exact hlb

/-- Score of `analyze_recent_performance` when the stat key is present. -/
theorem recent_score_eq (stats : PlayerStats) (prop : PropData) (pt : String)
    (lv : ℚ) (ras : List (String × ℚ)) (a : ℚ)
    (hpt : prop.prop_type = some pt) (hlv : prop.line_value = some lv)
    (hras : stats.recent_averages = some ras)
    (ha : ras.lookup (avgKeyOf pt) = some a) :
    (analyze_recent_performance stats prop).score =
      hitRateBucket (if lv > 0 then a / lv else 0) := by
  have hne : noRecentAverages stats = false :=
    noRecentAvgs_false stats ras hras (avgKeyOf pt) a ha
  simp only [analyze_recent_performance, hne, Bool.false_eq_true, if_false, hpt, hlv,
    hras, Option.getD, ha]

/-- Score of `analyze_historical_trends` when the stat key is present. -/
theorem hist_score_eq (stats : PlayerStats) (prop : PropData) (pt : String)
    (lv : ℚ) (ras : List (String × ℚ)) (a : ℚ)
    (hpt : prop.prop_type = some pt) (hlv : prop.line_value = some lv)
    (hras : stats.recent_averages = some ras)
    (ha : ras.lookup (avgKeyOf pt) = some a) :
    (analyze_historical_trends stats prop).score =
      min (max ((if lv > 0 then a / lv else 0) * 0.5) 0.2) 0.8 * 0.7 + 0.7 * 0.3 := by
  have hne : noRecentAverages stats = false :=
    noRecentAvgs_false stats ras hras (avgKeyOf pt) a ha
  simp only [analyze_historical_trends, hne, Bool.false_eq_true, if_false, hpt, hlv,
    hras, Option.getD, ha]

theorem batchAux_length (env : Env) (cfg : AnalysisConfig) (clock : ℕ → String)
    (statsBy : List (String × PlayerStats))
    (oppBy : Option (List (String × OpponentData))) :
    ∀ (i : ℕ) (ps : List PropData),
      (batchAux env cfg clock statsBy oppBy i ps).length = ps.length := by
  intro i ps
  induction ps generalizing i with
  | nil => rfl
  | cons p ps ih => simp [batchAux, ih]

theorem batchAux_get (env : Env) (cfg : AnalysisConfig) (clock : ℕ → String)
    (statsBy : List (String × PlayerStats))
    (oppBy : Option (List (String × OpponentData))) :
    ∀ (ps : List PropData) (i j : ℕ) (hp : j < ps.length)
      (hr : j < (batchAux env cfg clock statsBy oppBy i ps).length),
      (batchAux env cfg clock statsBy oppBy i ps).get ⟨j, hr⟩ =
        analyze_prop env cfg (clock (i + j)) (ps.get ⟨j, hp⟩)
          (statsForProp statsBy (ps.get ⟨j, hp⟩))
          (oppForProp oppBy (ps.get ⟨j, hp⟩)) := by
  intro ps
  induction ps with
  | nil =>
    intro i j hp
    exact absurd hp (by simp)
  | cons p ps ih =>
    intro i j hp hr
    cases j with
    | zero => simp [batchAux, List.get]
    | succ j' =>
      have hp' : j' < ps.length := by
        simpa using Nat.lt_of_succ_lt_succ hp
      have hr' : j' < (batchAux env cfg clock statsBy oppBy (i + 1) ps).length := by
        simpa [batchAux] using Nat.lt_of_succ_lt_succ hr
      have hstep : (batchAux env cfg clock statsBy oppBy i (p :: ps)).get ⟨j' + 1, hr⟩ =
          (batchAux env cfg clock statsBy oppBy (i + 1) ps).get ⟨j', hr'⟩ := rfl
      rw [hstep, ih (i + 1) j' hp' hr']
      have harith : i + 1 + j' = i + (j' + 1) := by omega
      rw [harith]
      rfl

theorem analyze_prop_error_of_no_name (env : Env) (cfg : AnalysisConfig) (now : String)
    (prop : PropData) (stats : PlayerStats) (opponent : Option OpponentData)
    (h : prop.player_name = Option.none) :
    analyze_prop env cfg now prop stats opponent =
      create_error_analysis prop "KeyError: player_name" now := by
  obtain ⟨pid, pn, pt, lv, sp, od⟩ := prop
  dsimp only at h
  subst h
  cases pt <;> cases lv <;> cases sp <;> rfl

/-! ### Claim theorems -/

/-- Claim C1.  For every analysis in which the wager-math block is
computed, the recommendation equals the first-match-wins rules of the
specification: `ev > 0.05 ∧ edge > 0.03 ∧ kelly > 0.01` branches on the
configured confidence thresholds (defaults high 0.75, medium 0.65);
else `ev > 0.02 ∧ edge > minEdgeThreshold` (default 0.01) gives
WEAK_BET; else `ev < -0.03 ∨ edge < -0.05` gives STRONG_AVOID; else
AVOID.  The branching confidence is the engine's internal (unrounded)
confidence score. -/
theorem claim1_recommendation_cascade :
    (∀ (cfg : AnalysisConfig) (conf : ℚ) (wb : WagerbrainBlock),
      generate_wagerbrain_recommendation cfg conf wb =
        specRecommendation (wb.expected_value.getD 0) (wb.edge.getD 0)
          (wb.kelly_criterion.getD 0) conf cfg.confidence_thresholds.high
          cfg.confidence_thresholds.medium cfg.min_edge_threshold) ∧
    defaultConfig.confidence_thresholds.high = 0.75 ∧
    defaultConfig.confidence_thresholds.medium = 0.65 ∧
    defaultConfig.min_edge_threshold = 0.01 ∧
    (∀ (env : Env) (cfg : AnalysisConfig) (now : String) (prop : PropData)
        (stats : PlayerStats) (opponent : Option OpponentData)
        (pn pt : String) (lv : ℚ) (sp : String),
      prop.player_name = some pn → prop.prop_type = some pt →
      prop.line_value = some lv → prop.sport = some sp →
      (analyze_prop env cfg now prop stats opponent).recommendation =
        specRecommendation
          ((analyze_prop env cfg now prop stats opponent).wagerbrain_analysis.expected_value.getD 0)
          ((analyze_prop env cfg now prop stats opponent).wagerbrain_analysis.edge.getD 0)
          ((analyze_prop env cfg now prop stats opponent).wagerbrain_analysis.kelly_criterion.getD 0)
          (confidenceOf cfg prop stats opponent)
          cfg.confidence_thresholds.high cfg.confidence_thresholds.medium
          cfg.min_edge_threshold) := by
  refine ⟨gen_rec_eq_spec, rfl, rfl, rfl, ?_⟩
  intro env cfg now prop stats opponent pn pt lv sp h1 h2 h3 h4
  obtain ⟨pid, pn', pt', lv', sp', od⟩ := prop
  dsimp only at h1 h2 h3 h4
  subst h1 h2 h3 h4
  rfl

theorem claim1_recommendation_cascade_witness :
    (analyze_prop testEnv smallCfg "t" cProp cStats Option.none).recommendation =
      specRecommendation
        ((analyze_prop testEnv smallCfg "t" cProp cStats Option.none).wagerbrain_analysis.expected_value.getD 0)
        ((analyze_prop testEnv smallCfg "t" cProp cStats Option.none).wagerbrain_analysis.edge.getD 0)
        ((analyze_prop testEnv smallCfg "t" cProp cStats Option.none).wagerbrain_analysis.kelly_criterion.getD 0)
        (confidenceOf smallCfg cProp cStats Option.none)
        smallCfg.confidence_thresholds.high smallCfg.confidence_thresholds.medium
        smallCfg.min_edge_threshold :=
  claim1_recommendation_cascade.2.2.2.2 testEnv smallCfg "t" cProp cStats Option.none
    "Mike Trout" "hits" (3/2) "MLB" rfl rfl rfl rfl

/-- Claim C2 (counterexample).  `analyze_prop` is not a pure function of
its three data inputs: the `analyzed_at` field records the wall-clock
timestamp, so two calls with identical prop/stats/opponent arguments at
different instants produce different results. -/
theorem claim2_purity_counterexample :
    analyze_prop testEnv smallCfg "2025-01-01T00:00:00" cProp cStats Option.none ≠
      analyze_prop testEnv smallCfg "2025-01-01T00:00:01" cProp cStats Option.none :=
  fun h => absurd (congrArg AnalysisResult.analyzed_at h) (by decide)

/-- Claim C2 (amended).  Apart from the `analyzed_at` timestamp,
`analyze_prop` is a pure function of its three inputs: for any two call
instants the results agree on every other field (the Monte Carlo
sampler is deterministic thanks to the fixed seed, modelled by `Env`
being a record of fixed functions). -/
theorem claim2_pure_modulo_timestamp (env : Env) (cfg : AnalysisConfig)
    (t1 t2 : String) (prop : PropData) (stats : PlayerStats)
    (opponent : Option OpponentData) :
    analyze_prop env cfg t1 prop stats opponent =
      { analyze_prop env cfg t2 prop stats opponent with analyzed_at := t1 } := by
  obtain ⟨pid, pn, pt, lv, sp, od⟩ := prop
  cases pn <;> cases pt <;> cases lv <;> cases sp <;> rfl

/-- Claim C9.  With no recent averages (absent, `None`, or empty), the
statistical analysis returns the fixed neutral payload (volatility 0.1,
interval `[0, 0]`, note `insufficient_data`) and the Monte Carlo
simulation returns hit-rate 0.5 with 0 simulations and the same note;
both functions are total (no exception escapes). -/
theorem claim9_insufficient_data (env : Env) (cfg : AnalysisConfig)
    (stats : PlayerStats) (prop : PropData)
    (h : noRecentAverages stats = true) :
    ((wagerbrain_statistical_analysis env stats prop).volatility = 0.1 ∧
      (wagerbrain_statistical_analysis env stats prop).confidence_interval = some (0, 0) ∧
      (wagerbrain_statistical_analysis env stats prop).note = some "insufficient_data") ∧
    ((run_monte_carlo_simulation env cfg prop stats Option.none).hit_rate_over = 0.5 ∧
      (run_monte_carlo_simulation env cfg prop stats Option.none).simulations = some 0 ∧
      (run_monte_carlo_simulation env cfg prop stats Option.none).note = some "insufficient_data") := by
  rw [wagerbrain_statistical_analysis, run_monte_carlo_simulation]
  rw [if_pos h, if_pos h]
  exact ⟨⟨rfl, rfl, rfl⟩, rfl, rfl, rfl⟩

theorem claim9_insufficient_data_witness :
    ((wagerbrain_statistical_analysis testEnv emptyStats cProp).volatility = 0.1 ∧
      (wagerbrain_statistical_analysis testEnv emptyStats cProp).confidence_interval = some (0, 0) ∧
      (wagerbrain_statistical_analysis testEnv emptyStats cProp).note = some "insufficient_data") ∧
    ((run_monte_carlo_simulation testEnv defaultConfig cProp emptyStats Option.none).hit_rate_over = 0.5 ∧
      (run_monte_carlo_simulation testEnv defaultConfig cProp emptyStats Option.none).simulations = some 0 ∧
      (run_monte_carlo_simulation testEnv defaultConfig cProp emptyStats Option.none).note = some "insufficient_data") :=
  claim9_insufficient_data testEnv defaultConfig emptyStats cProp rfl

/-- Claim C4.  `implied_probability` follows the American odds
convention on explicitly signed odds strings (positive `o` gives
`100/(o+100)`, negative `o` gives `|o|/(|o|+100)`); `"-110"` evaluates
to `11/21 ≈ 0.5238`; unsigned or non-string odds fail soft by
substituting `-110`; a signed but unparseable string takes the bare
`except` path returning exactly `0.5263`.  The function is total, so it
never raises to the caller. -/
theorem claim4_implied_probability :
    (∀ (s : String) (v : ℤ),
      (startsWithChar s '+' || startsWithChar s '-') = true →
      pyParseInt s = some v →
      implied_probability (OddsVal.str s) = impliedFromValue v) ∧
    (∀ v : ℤ, 0 < v → impliedFromValue v = 100 / ((v : ℚ) + 100)) ∧
    (∀ v : ℤ, v < 0 →
      impliedFromValue v = ((-v : ℤ) : ℚ) / (((-v : ℤ) : ℚ) + 100)) ∧
    (implied_probability (OddsVal.str "-110") = 11/21 ∧
      |(11 : ℚ)/21 - 0.5238| < 0.001) ∧
    (∀ s : String, (startsWithChar s '+' || startsWithChar s '-') = false →
      implied_probability (OddsVal.str s) = impliedFromValue (-110)) ∧
    (∀ n : ℤ, implied_probability (OddsVal.int n) = impliedFromValue (-110)) ∧
    impliedFromValue (-110) = 11/21 ∧
    (∀ s : String, (startsWithChar s '+' || startsWithChar s '-') = true →
      pyParseInt s = Option.none →
      implied_probability (OddsVal.str s) = 0.5263) := by
  refine ⟨?_, ?_, ?_, ⟨?_, ?_⟩, ?_, ?_, ?_, ?_⟩
  · intro s v hc hp
    simp only [implied_probability, oddsIntValue, if_pos hc, hp]
  · intro v hv
    rw [impliedFromValue, if_pos hv]
  · intro v hv
    rw [impliedFromValue, if_neg (by omega), abs_of_neg hv]
  · have h1 : oddsIntValue (OddsVal.str "-110") = some (-110) := by decide
    simp only [implied_probability, h1]
    norm_num [impliedFromValue]
  · rw [abs_sub_lt_iff]
    constructor <;> norm_num
  · intro s hc
    have h1 : oddsIntValue (OddsVal.str s) = some (-110) := by
      simp only [oddsIntValue]
      rw [if_neg (by simp [hc])]
    simp only [implied_probability, h1]
  · intro n
    rfl
  · norm_num [impliedFromValue]
  · intro s hc hp
    simp only [implied_probability, oddsIntValue, if_pos hc, hp]

theorem claim4_implied_probability_witness :
    implied_probability (OddsVal.str "+120") = impliedFromValue 120 ∧
    implied_probability (OddsVal.str "120") = impliedFromValue (-110) ∧
    implied_probability (OddsVal.str "+abc") = 0.5263 :=
  ⟨claim4_implied_probability.1 "+120" 120 (by decide) (by decide),
    claim4_implied_probability.2.2.2.2.1 "120" (by decide),
    claim4_implied_probability.2.2.2.2.2.2.2 "+abc" (by decide) (by decide)⟩

/-- Claim C5.  The Kelly fraction returned by the engine is always in
`[0, cap]` (cap 0.25 for the module-level function, the configured
nonnegative cap for the engine-method fallback); and whenever the true
probability does not exceed the implied probability of the same odds,
the raw Kelly value `(p·d − 1)/(d − 1)` is nonpositive and the returned
fraction is exactly 0. -/
theorem claim5_kelly_boundary :
    (∀ (p : ℚ) (odds : OddsVal),
      0 ≤ kelly_criterion p odds ∧ kelly_criterion p odds ≤ 1/4) ∧
    (∀ (cap p : ℚ) (odds : OddsVal), 0 ≤ cap →
      0 ≤ fallback_kelly_criterion cap p odds ∧
        fallback_kelly_criterion cap p odds ≤ cap) ∧
    (∀ (p : ℚ) (odds : OddsVal) (v : ℤ),
      oddsIntValue odds = some v → v ≠ 0 →
      p ≤ implied_probability odds →
      (p * decimalOddsOf v - 1) / (decimalOddsOf v - 1) ≤ 0 ∧
        kelly_criterion p odds = 0) :=
  ⟨kelly_criterion_bounds, fallback_kelly_criterion_bounds,
    fun p odds v ho hv hp => kelly_zero_of_no_edge p odds v ho hv hp⟩

theorem claim5_kelly_boundary_witness :
    ((0 : ℚ) ≤ kelly_criterion (1/2) (OddsVal.str "-110") ∧
      kelly_criterion (1/2) (OddsVal.str "-110") ≤ 1/4) ∧
    ((0 : ℚ) ≤ fallback_kelly_criterion (1/10) (1/2) (OddsVal.str "-110") ∧
      fallback_kelly_criterion (1/10) (1/2) (OddsVal.str "-110") ≤ 1/10) ∧
    ((1/2 * decimalOddsOf (-110) - 1) / (decimalOddsOf (-110) - 1) ≤ 0 ∧
      kelly_criterion (1/2) (OddsVal.str "-110") = 0) :=
  ⟨claim5_kelly_boundary.1 (1/2) (OddsVal.str "-110"),
    claim5_kelly_boundary.2.1 (1/10) (1/2) (OddsVal.str "-110") (by norm_num),
    claim5_kelly_boundary.2.2 (1/2) (OddsVal.str "-110") (-110) (by decide) (by decide)
      (by
        have h1 : oddsIntValue (OddsVal.str "-110") = some (-110) := by decide
        simp only [implied_probability, h1]
        norm_num [impliedFromValue])⟩

/-- Claim C3 (counterexample).  The Kelly fraction attached by the
primary path of `wagerbrain_mathematical_analysis` is NOT capped by the
configured `kelly_max_fraction`: with the cap configured to 1/10 and
confidence 0.9 at odds "+200" the attached Kelly fraction is 0.25,
outside `[0, 1/10]`.  The module-level `kelly_criterion` the primary
path calls uses a hard-coded 0.25 cap and never reads the
configuration. -/
theorem claim3_config_cap_counterexample :
    (wagerbrain_mathematical_analysis testEnv c3cfg c3prop (9/10) cStats).kelly_criterion =
      some (1/4) ∧
    ¬ ((1/4 : ℚ) ≤ c3cfg.kelly_max_fraction) := by
  constructor
  · have hp : profitResult (c3prop.odds.getD (OddsVal.str "-110")) = some 2 := by
      show profitResult (OddsVal.str "+200") = some 2
      have h1 : pyParseInt (removePlus (pyStr (OddsVal.str "+200"))) = some 200 := by decide
      simp only [profitResult, h1]
      norm_num
    have hk := (wagerbrain_math_fields testEnv c3cfg c3prop (9/10) cStats (3/2) 2 rfl hp).1
    rw [hk]
    have hkv : kelly_criterion (9/10) (c3prop.odds.getD (OddsVal.str "-110")) = 1/4 := by
      show kelly_criterion (9/10) (OddsVal.str "+200") = 1/4
      have h1 : oddsIntValue (OddsVal.str "+200") = some 200 := by decide
      simp only [kelly_criterion, h1]
      norm_num [decimalOddsOf]
    rw [hkv, pyRound_eq_of_int 4 (1/4) 2500 (by norm_num)]
    norm_num
  · exact (by norm_num : ¬((1/4 : ℚ) ≤ (1/10 : ℚ)))

/-- Claim C3 (amended).  The Kelly fraction attached to every wager-math
result is nonnegative; on the primary (non-exception) path it is capped
by the hard-coded 0.25 of the module-level `kelly_criterion`, the
configured `kelly_max_fraction` being consulted only by the
exception-fallback path. -/
theorem claim3_kelly_cap_amended :
    (∀ (env : Env) (cfg : AnalysisConfig) (prop : PropData) (conf : ℚ)
        (stats : PlayerStats),
      ∃ k, (wagerbrain_mathematical_analysis env cfg prop conf stats).kelly_criterion =
          some k ∧ 0 ≤ k) ∧
    (∀ (env : Env) (cfg : AnalysisConfig) (prop : PropData) (conf : ℚ)
        (stats : PlayerStats) (lv pr : ℚ),
      prop.line_value = some lv →
      profitResult (prop.odds.getD (OddsVal.str "-110")) = some pr →
      ∀ k, (wagerbrain_mathematical_analysis env cfg prop conf stats).kelly_criterion =
          some k → 0 ≤ k ∧ k ≤ 1/4) := by
  constructor
  · intro env cfg prop conf stats
    cases hl : prop.line_value with
    | none =>
      refine ⟨_, wagerbrain_math_fallback_kelly env cfg prop conf stats (Or.inl hl), ?_⟩
      exact pyRound_nonneg 4 _ (fallback_kelly_criterion_nonneg _ _ _)
    | some lv =>
      cases hp : profitResult (prop.odds.getD (OddsVal.str "-110")) with
      | none =>
        refine ⟨_, wagerbrain_math_fallback_kelly env cfg prop conf stats (Or.inr hp), ?_⟩
        exact pyRound_nonneg 4 _ (fallback_kelly_criterion_nonneg _ _ _)
      | some pr =>
        refine ⟨_, (wagerbrain_math_fields env cfg prop conf stats lv pr hl hp).1, ?_⟩
        exact pyRound_nonneg 4 _ (kelly_criterion_bounds _ _).1
  · intro env cfg prop conf stats lv pr hl hp k hk
    rw [(wagerbrain_math_fields env cfg prop conf stats lv pr hl hp).1] at hk
    have hk' : k = pyRound 4 (kelly_criterion conf (prop.odds.getD (OddsVal.str "-110"))) :=
      (Option.some.injEq _ _ ▸ hk).symm
    subst hk'
    constructor
    · exact pyRound_nonneg 4 _ (kelly_criterion_bounds _ _).1
    · exact pyRound4_le_quarter _ (kelly_criterion_bounds _ _).2

theorem claim3_kelly_cap_amended_witness :
    (∃ k, (wagerbrain_mathematical_analysis testEnv c3cfg c3prop (9/10) cStats).kelly_criterion =
        some k ∧ 0 ≤ k) ∧
    (∀ k, (wagerbrain_mathematical_analysis testEnv c3cfg c3prop (9/10) cStats).kelly_criterion =
        some k → 0 ≤ k ∧ k ≤ 1/4) :=
  ⟨claim3_kelly_cap_amended.1 testEnv c3cfg c3prop (9/10) cStats,
    claim3_kelly_cap_amended.2 testEnv c3cfg c3prop (9/10) cStats (3/2) 2 rfl
      (by
        show profitResult (OddsVal.str "+200") = some 2
        have h1 : pyParseInt (removePlus (pyStr (OddsVal.str "+200"))) = some 200 := by decide
        simp only [profitResult, h1]
        norm_num)⟩

/-- Claim C6 (counterexample).  The emitted 95% confidence interval is
not exactly `[max(0, avg − 1.96·sd), avg + 1.96·sd]`: the engine rounds
both bounds to 2 decimals.  At `avg = 1.8`, `line = 1.5` the formula
gives `[1.0944, 2.5056]` but the emitted interval is `[1.09, 2.51]`. -/
theorem claim6_statistical_counterexample :
    (wagerbrain_statistical_analysis testEnv cStats cProp).confidence_interval =
      some (109/100, 251/100) ∧
    (max 0 ((9 : ℚ)/5 - 1.96 * ((9/5) * max 0.05 (min 0.5 (|(9 : ℚ)/5 - 3/2| / (3/2)))))) = 684/625 ∧
    ((9 : ℚ)/5 + 1.96 * ((9/5) * max 0.05 (min 0.5 (|(9 : ℚ)/5 - 3/2| / (3/2))))) = 1566/625 ∧
    ((109 : ℚ)/100, (251 : ℚ)/100) ≠ ((684 : ℚ)/625, (1566 : ℚ)/625) := by
  have hv : max (0.05 : ℚ) (min 0.5 (|(9 : ℚ)/5 - 3/2| / (3/2))) = 1/5 := by
    have h1 : |(9 : ℚ)/5 - 3/2| = 3/10 := by
      rw [show (9 : ℚ)/5 - 3/2 = 3/10 by norm_num]
      exact abs_of_pos (by norm_num)
    rw [h1, show (3 : ℚ)/10 / (3/2) = 1/5 by norm_num,
      min_eq_right (by norm_num), max_eq_right (by norm_num)]
  refine ⟨?_, ?_, ?_, ?_⟩
  · have hs := stat_fields testEnv cStats cProp "hits" (3/2)
      [("avg_hits", 9/5), ("avg_runs", 6/5), ("avg_rbis", 3/2)] (9/5)
      rfl rfl rfl rfl
    rw [hs]
    show some (pyRound 2 (max 0 ((9 : ℚ)/5 - 1.96 * ((9/5) *
        max 0.05 (min 0.5 (if (3/2 : ℚ) > 0 then |(9 : ℚ)/5 - 3/2| / (3/2) else 0.1))))),
      pyRound 2 ((9 : ℚ)/5 + 1.96 * ((9/5) *
        max 0.05 (min 0.5 (if (3/2 : ℚ) > 0 then |(9 : ℚ)/5 - 3/2| / (3/2) else 0.1))))) =
      some (109/100, 251/100)
    rw [if_pos (by norm_num : (3/2 : ℚ) > 0), hv]
    rw [show (9 : ℚ)/5 - 1.96 * ((9/5) * (1/5)) = 684/625 by norm_num]
    rw [max_eq_right (by norm_num : (0 : ℚ) ≤ 684/625)]
    rw [show (9 : ℚ)/5 + 1.96 * ((9/5) * (1/5)) = 1566/625 by norm_num]
    rw [pyRound, show (684/625 : ℚ) * 10 ^ 2 = 13680/125 by norm_num,
      roundHalfEven_eq_low _ 109 (by norm_num) (by push_cast; norm_num)]
    rw [pyRound, show (1566/625 : ℚ) * 10 ^ 2 = 31320/125 by norm_num,
      roundHalfEven_eq_high _ 250 (by push_cast; norm_num) (by push_cast; norm_num)]
    norm_num
  · rw [hv]
    norm_num
  · rw [hv]
    norm_num
  · simp only [ne_eq, Prod.mk.injEq, not_and]
    intro h
    norm_num at h

/-- Claim C6 (amended).  With a recent average for the prop's stat key:
volatility is `|avg − line|/line` (0.1 when the line is not positive)
clamped to `[0.05, 0.5]` and emitted rounded to 3 decimals;
`sd = avg·vol` (3 decimals); `z = (line − avg)/sd`, 0 whenever `sd` is
NOT positive (not only when 0), 3 decimals; the 95% interval
`[max(0, avg − 1.96 sd), avg + 1.96 sd]` is emitted rounded to 2
decimals; and the emitted `probability_under` equals exactly
`1 - probability_over` (banker's rounding commutes with `1 - ·`). -/
theorem claim6_statistical_amended (env : Env) (stats : PlayerStats) (prop : PropData)
    (pt : String) (lv : ℚ) (ras : List (String × ℚ)) (a : ℚ)
    (hpt : prop.prop_type = some pt) (hlv : prop.line_value = some lv)
    (hras : stats.recent_averages = some ras)
    (ha : ras.lookup (avgKeyOf pt) = some a) :
    (let vol := max 0.05 (min 0.5 (if lv > 0 then |a - lv| / lv else 0.1))
     let sd := a * vol
     (wagerbrain_statistical_analysis env stats prop).volatility = pyRound 3 vol ∧
     (wagerbrain_statistical_analysis env stats prop).standard_deviation =
       some (pyRound 3 sd) ∧
     (wagerbrain_statistical_analysis env stats prop).z_score =
       some (pyRound 3 (if sd > 0 then (lv - a) / sd else 0)) ∧
     (wagerbrain_statistical_analysis env stats prop).confidence_interval =
       some (pyRound 2 (max 0 (a - 1.96 * sd)), pyRound 2 (a + 1.96 * sd)) ∧
     (∀ po pu,
       (wagerbrain_statistical_analysis env stats prop).probability_over = some po →
       (wagerbrain_statistical_analysis env stats prop).probability_under = some pu →
       pu = 1 - po)) := by
  rw [stat_fields env stats prop pt lv ras a hpt hlv hras ha]
  refine ⟨rfl, rfl, rfl, rfl, ?_⟩
  intro po pu hpo hpu
  have hpo' : po = pyRound 4 (if env.scipyAvailable then 1 - env.normCdf lv a
      ((a * max 0.05 (min 0.5 (if lv > 0 then |a - lv| / lv else 0.1))))
      else stepProbOver (if (a * max 0.05 (min 0.5 (if lv > 0 then |a - lv| / lv else 0.1))) > 0
        then (lv - a) / (a * max 0.05 (min 0.5 (if lv > 0 then |a - lv| / lv else 0.1))) else 0)) := by
    exact (Option.some.injEq _ _ ▸ hpo).symm
  have hpu' : pu = pyRound 4 (1 - (if env.scipyAvailable then 1 - env.normCdf lv a
      ((a * max 0.05 (min 0.5 (if lv > 0 then |a - lv| / lv else 0.1))))
      else stepProbOver (if (a * max 0.05 (min 0.5 (if lv > 0 then |a - lv| / lv else 0.1))) > 0
        then (lv - a) / (a * max 0.05 (min 0.5 (if lv > 0 then |a - lv| / lv else 0.1))) else 0))) := by
    exact (Option.some.injEq _ _ ▸ hpu).symm
  rw [hpo', hpu', pyRound_one_sub]

theorem claim6_statistical_amended_witness :
    (wagerbrain_statistical_analysis testEnv cStats cProp).volatility =
      pyRound 3 (max 0.05 (min 0.5 (if (3/2 : ℚ) > 0 then |(9 : ℚ)/5 - 3/2| / (3/2) else 0.1))) ∧
    (∀ po pu,
      (wagerbrain_statistical_analysis testEnv cStats cProp).probability_over = some po →
      (wagerbrain_statistical_analysis testEnv cStats cProp).probability_under = some pu →
      pu = 1 - po) :=
  ⟨(claim6_statistical_amended testEnv cStats cProp "hits" (3/2)
      [("avg_hits", 9/5), ("avg_runs", 6/5), ("avg_rbis", 3/2)] (9/5) rfl rfl rfl rfl).1,
    (claim6_statistical_amended testEnv cStats cProp "hits" (3/2)
      [("avg_hits", 9/5), ("avg_runs", 6/5), ("avg_rbis", 3/2)] (9/5) rfl rfl rfl rfl).2.2.2.2⟩

/-- Claim C7.  For a positive line, the recent-form score is exactly the
ten-bucket step function of `recentAverage / line` the specification
lists (part 1-2); the step function is non-decreasing (part 3); and,
holding everything else fixed, raising the recent average never lowers
the recent-form score or the final confidence, provided the recent-form
and historical factor weights are nonnegative (defaults 0.40 and 0.05)
(part 4). -/
theorem claim7_recent_form_monotonicity :
    (∀ ratio : ℚ, hitRateBucket ratio = specTenBucketHitRate ratio) ∧
    (∀ (stats : PlayerStats) (prop : PropData) (pt : String) (lv : ℚ)
        (ras : List (String × ℚ)) (a : ℚ),
      prop.prop_type = some pt → prop.line_value = some lv →
      stats.recent_averages = some ras → ras.lookup (avgKeyOf pt) = some a →
      0 < lv →
      (analyze_recent_performance stats prop).score = specTenBucketHitRate (a / lv)) ∧
    (∀ r1 r2 : ℚ, r1 ≤ r2 → specTenBucketHitRate r1 ≤ specTenBucketHitRate r2) ∧
    (∀ (cfg : AnalysisConfig) (prop : PropData) (pt : String) (lv : ℚ)
        (gp tg : Option ℚ) (opp : Option OpponentData) (a1 a2 : ℚ),
      prop.prop_type = some pt → prop.line_value = some lv → 0 < lv →
      0 ≤ cfg.factor_weights.recent_form → 0 ≤ cfg.factor_weights.historical →
      a1 ≤ a2 →
      (analyze_recent_performance (mkStats pt a1 gp tg) prop).score ≤
        (analyze_recent_performance (mkStats pt a2 gp tg) prop).score ∧
      confidenceOf cfg prop (mkStats pt a1 gp tg) opp ≤
        confidenceOf cfg prop (mkStats pt a2 gp tg) opp) := by
  have hspec : ∀ ratio : ℚ, hitRateBucket ratio = specTenBucketHitRate ratio :=
    fun _ => rfl
  have hlook : ∀ (pt : String) (a : ℚ),
      List.lookup (avgKeyOf pt) [(avgKeyOf pt, a)] = some a := by
    intro pt a
    simp [List.lookup]
  have hmkras : ∀ (pt : String) (a : ℚ) (gp tg : Option ℚ),
      (mkStats pt a gp tg).recent_averages = some [(avgKeyOf pt, a)] := fun _ _ _ _ => rfl
  refine ⟨hspec, ?_, ?_, ?_⟩
  · intro stats prop pt lv ras a hpt hlv hras ha hlv0
    rw [recent_score_eq stats prop pt lv ras a hpt hlv hras ha, if_pos hlv0, hspec]
  · intro r1 r2 h
    rw [← hspec, ← hspec]
    exact hitRateBucket_mono h
  · intro cfg prop pt lv gp tg opp a1 a2 hpt hlv hlv0 hw1 hw2 h12
    have hratio : a1 / lv ≤ a2 / lv := by gcongr
    have hrs : (analyze_recent_performance (mkStats pt a1 gp tg) prop).score ≤
        (analyze_recent_performance (mkStats pt a2 gp tg) prop).score := by
      rw [recent_score_eq (mkStats pt a1 gp tg) prop pt lv _ a1 hpt hlv (hmkras pt a1 gp tg) (hlook pt a1),
        recent_score_eq (mkStats pt a2 gp tg) prop pt lv _ a2 hpt hlv (hmkras pt a2 gp tg) (hlook pt a2),
        if_pos hlv0, if_pos hlv0]
      exact hitRateBucket_mono hratio
    refine ⟨hrs, ?_⟩
    have hhs : (analyze_historical_trends (mkStats pt a1 gp tg) prop).score ≤
        (analyze_historical_trends (mkStats pt a2 gp tg) prop).score := by
      rw [hist_score_eq (mkStats pt a1 gp tg) prop pt lv _ a1 hpt hlv (hmkras pt a1 gp tg) (hlook pt a1),
        hist_score_eq (mkStats pt a2 gp tg) prop pt lv _ a2 hpt hlv (hmkras pt a2 gp tg) (hlook pt a2),
        if_pos hlv0, if_pos hlv0]
      have h2 : min (max (a1 / lv * 0.5) 0.2) 0.8 ≤ min (max (a2 / lv * 0.5) 0.2) 0.8 :=
        min_le_min (max_le_max (by linarith) (le_refl 0.2)) (le_refl 0.8)
      linarith
    simp only [confidenceOf, calculate_confidence_score]
    rw [show analyze_situational_factors prop (mkStats pt a2 gp tg) =
        analyze_situational_factors prop (mkStats pt a1 gp tg) from rfl]
    refine max_le_max (le_refl 0) (min_le_min (le_refl 1) ?_)
    have t1 := mul_le_mul_of_nonneg_right hrs hw1
    have t2 := mul_le_mul_of_nonneg_right hhs hw2
    linarith

theorem claim7_recent_form_monotonicity_witness :
    ((analyze_recent_performance cStats cProp).score = specTenBucketHitRate ((9/5) / (3/2))) ∧
    ((analyze_recent_performance (mkStats "hits" 1 Option.none Option.none) cProp).score ≤
        (analyze_recent_performance (mkStats "hits" 2 Option.none Option.none) cProp).score ∧
      confidenceOf defaultConfig cProp (mkStats "hits" 1 Option.none Option.none) Option.none ≤
        confidenceOf defaultConfig cProp (mkStats "hits" 2 Option.none Option.none) Option.none) :=
  ⟨claim7_recent_form_monotonicity.2.1 cStats cProp "hits" (3/2)
      [("avg_hits", 9/5), ("avg_runs", 6/5), ("avg_rbis", 3/2)] (9/5)
      rfl rfl rfl rfl (by norm_num),
    claim7_recent_form_monotonicity.2.2.2 defaultConfig cProp "hits" (3/2)
      Option.none Option.none Option.none 1 2 rfl rfl (by norm_num)
      (by norm_num [defaultConfig]) (by norm_num [defaultConfig]) (by norm_num)⟩

/-- Claim C8.  Batch analysis returns exactly one result per submitted
prop, each produced independently from that prop's own data (so the
function is total: no unhandled failure can surface); a prop whose
analysis fails (here: the required `player_name` key is missing) yields
an error-tagged result for that prop only — confidence 0,
recommendation "ERROR", error text populated — while every other prop
is processed normally. -/
theorem claim8_batch_isolation (env : Env) (cfg : AnalysisConfig) (clock : ℕ → String)
    (props : List PropData) (statsBy : List (String × PlayerStats))
    (oppBy : Option (List (String × OpponentData))) :
    (batch_analyze_props env cfg clock props statsBy oppBy).length = props.length ∧
    ∀ (j : ℕ) (hp : j < props.length)
      (hr : j < (batch_analyze_props env cfg clock props statsBy oppBy).length),
      (batch_analyze_props env cfg clock props statsBy oppBy).get ⟨j, hr⟩ =
        analyze_prop env cfg (clock (1 + j)) (props.get ⟨j, hp⟩)
          (statsForProp statsBy (props.get ⟨j, hp⟩))
          (oppForProp oppBy (props.get ⟨j, hp⟩)) ∧
      ((props.get ⟨j, hp⟩).player_name = Option.none →
        ((batch_analyze_props env cfg clock props statsBy oppBy).get ⟨j, hr⟩).confidence_score = 0 ∧
        ((batch_analyze_props env cfg clock props statsBy oppBy).get ⟨j, hr⟩).recommendation = "ERROR" ∧
        ((batch_analyze_props env cfg clock props statsBy oppBy).get ⟨j, hr⟩).error =
          some "KeyError: player_name") := by
  refine ⟨batchAux_length env cfg clock statsBy oppBy 1 props, ?_⟩
  intro j hp hr
  have hget := batchAux_get env cfg clock statsBy oppBy props 1 j hp hr
  refine ⟨hget, ?_⟩
  intro hnone
  have herr := analyze_prop_error_of_no_name env cfg (clock (1 + j)) (props.get ⟨j, hp⟩)
    (statsForProp statsBy (props.get ⟨j, hp⟩)) (oppForProp oppBy (props.get ⟨j, hp⟩)) hnone
  rw [show (batch_analyze_props env cfg clock props statsBy oppBy).get ⟨j, hr⟩ =
      create_error_analysis (props.get ⟨j, hp⟩) "KeyError: player_name" (clock (1 + j))
    from hget.trans herr]
  exact ⟨rfl, rfl, rfl⟩

theorem claim8_batch_isolation_witness :
    (batch_analyze_props testEnv smallCfg (fun _ => "t") [badProp] [] Option.none).length =
      ([badProp] : List PropData).length ∧
    ∀ (hr : 0 < (batch_analyze_props testEnv smallCfg (fun _ => "t") [badProp] [] Option.none).length),
      ((batch_analyze_props testEnv smallCfg (fun _ => "t") [badProp] [] Option.none).get ⟨0, hr⟩).confidence_score = 0 ∧
      ((batch_analyze_props testEnv smallCfg (fun _ => "t") [badProp] [] Option.none).get ⟨0, hr⟩).recommendation = "ERROR" ∧
      ((batch_analyze_props testEnv smallCfg (fun _ => "t") [badProp] [] Option.none).get ⟨0, hr⟩).error =
        some "KeyError: player_name" :=
  ⟨(claim8_batch_isolation testEnv smallCfg (fun _ => "t") [badProp] [] Option.none).1,
    fun hr =>
      ((claim8_batch_isolation testEnv smallCfg (fun _ => "t") [badProp] [] Option.none).2
        0 (by norm_num) hr).2 rfl⟩

/-- Claim C10.  An odds string consisting only of digits (no sign) is
treated as `-110` by `implied_probability` (which only parses explicitly
signed strings), while the per-unit profit computation inside
`wagerbrain_mathematical_analysis` parses the very same string as
positive American odds (`profit = odds/100`); hence for a prop quoted at
`"120"` the attached implied probability/edge use the `-110`
interpretation while the attached expected value uses the `+120`
interpretation, two different readings of the same odds. -/
theorem claim10_odds_interpretation_mismatch :
    (∀ s : String, allDigits s.data = true →
      implied_probability (OddsVal.str s) = impliedFromValue (-110)) ∧
    (∀ s : String, allDigits s.data = true → 0 < digitsToNat s.data →
      profitResult (OddsVal.str s) = some (((digitsToNat s.data : ℤ) : ℚ) / 100)) ∧
    (implied_probability (OddsVal.str "120") = implied_probability (OddsVal.str "-110") ∧
      profitResult (OddsVal.str "120") = some (6/5) ∧
      profitResult (OddsVal.str "-110") = some (10/11) ∧
      (6/5 : ℚ) ≠ 10/11) ∧
    (∀ (env : Env) (cfg : AnalysisConfig) (conf : ℚ) (stats : PlayerStats),
      (wagerbrain_mathematical_analysis env cfg c10prop conf stats).implied_probability =
        some (pyRound 4 (11/21)) ∧
      (wagerbrain_mathematical_analysis env cfg c10prop conf stats).expected_value =
        some (pyRound 4 (conf * (6/5) - (1 - conf) * 1))) := by
  have hnotsigned : ∀ s : String, allDigits s.data = true →
      (startsWithChar s '+' || startsWithChar s '-') = false := by
    intro s hd
    rcases hs : s.data with _ | ⟨c, cs⟩
    · rw [hs] at hd
      simp [allDigits] at hd
    · have hc : c.isDigit = true := by
        rw [hs] at hd
        simp only [allDigits, List.isEmpty_cons, Bool.not_false, Bool.true_and,
          List.all_cons, Bool.and_eq_true] at hd
        exact hd.1
      have hcp : c ≠ '+' := by
        intro he
        rw [he] at hc
        exact absurd hc (by decide)
      have hcm : c ≠ '-' := by
        intro he
        rw [he] at hc
        exact absurd hc (by decide)
      simp [startsWithChar, hs, hcp, hcm]
  have himp : ∀ s : String, allDigits s.data = true →
      implied_probability (OddsVal.str s) = impliedFromValue (-110) := by
    intro s hd
    have h1 : oddsIntValue (OddsVal.str s) = some (-110) := by
      simp only [oddsIntValue]
      rw [if_neg (by simp [hnotsigned s hd])]
    simp only [implied_probability, h1]
  refine ⟨himp, ?_, ⟨?_, ?_, ?_, by norm_num⟩, ?_⟩
  · intro s hd hpos
    have hdigits : ∀ c ∈ s.data, c.isDigit = true := by
      intro c hc
      have := hd
      simp only [allDigits, Bool.and_eq_true, List.all_eq_true] at this
      exact this.2 c hc
    have hfilter : s.data.filter (fun c => c ≠ '+') = s.data := by
      apply List.filter_eq_self.mpr
      intro c hc
      simp only [ne_eq, decide_eq_true_eq]
      intro he
      exact absurd (hdigits '+' (he ▸ hc)) (by decide)
    have hdata : (removePlus s).data = s.data := by
      simp only [removePlus]
      rw [hfilter]
    have hparse : pyParseInt (removePlus (pyStr (OddsVal.str s))) =
        some (digitsToNat s.data : ℤ) := by
      show pyParseInt (removePlus s) = some (digitsToNat s.data : ℤ)
      have hcongr : pyParseInt (removePlus s) = pyParseInt s := by
        unfold pyParseInt
        rw [hdata]
      rw [hcongr]
      rcases hs : s.data with _ | ⟨c, cs⟩
      · rw [hs] at hd
        simp [allDigits] at hd
      · have hc : c.isDigit = true := by
          rw [hs] at hd
          simp only [allDigits, List.isEmpty_cons, Bool.not_false, Bool.true_and,
            List.all_cons, Bool.and_eq_true] at hd
          exact hd.1
        have hcp : c ≠ '+' := by
          intro he
          rw [he] at hc
          exact absurd hc (by decide)
        have hcm : c ≠ '-' := by
          intro he
          rw [he] at hc
          exact absurd hc (by decide)
        unfold pyParseInt
        rw [hs]
        dsimp only
        rw [if_neg hcp, if_neg hcm, if_pos (by rw [← hs]; exact hd)]
    simp only [profitResult, hparse]
    rw [if_pos (by exact_mod_cast hpos)]
  · have h1 : oddsIntValue (OddsVal.str "120") = some (-110) := by decide
    have h2 : oddsIntValue (OddsVal.str "-110") = some (-110) := by decide
    simp only [implied_probability, h1, h2]
  · have h1 : pyParseInt (removePlus (pyStr (OddsVal.str "120"))) = some 120 := by decide
    simp only [profitResult, h1]
    rw [if_pos (by norm_num)]
    norm_num
  · have h1 : pyParseInt (removePlus (pyStr (OddsVal.str "-110"))) = some (-110) := by decide
    simp only [profitResult, h1]
    rw [if_neg (by norm_num), if_neg (by norm_num)]
    norm_num
  · intro env cfg conf stats
    have hp : profitResult (c10prop.odds.getD (OddsVal.str "-110")) = some (6/5) := by
      show profitResult (OddsVal.str "120") = some (6/5)
      have h1 : pyParseInt (removePlus (pyStr (OddsVal.str "120"))) = some 120 := by decide
      simp only [profitResult, h1]
      rw [if_pos (by norm_num)]
      norm_num
    have hf := wagerbrain_math_fields env cfg c10prop conf stats (3/2) (6/5) rfl hp
    constructor
    · rw [hf.2.1]
      have himp120 : implied_probability (c10prop.odds.getD (OddsVal.str "-110")) = 11/21 := by
        show implied_probability (OddsVal.str "120") = 11/21
        have h1 : oddsIntValue (OddsVal.str "120") = some (-110) := by decide
        simp only [implied_probability, h1]
        norm_num [impliedFromValue]
      rw [himp120]
    · rw [hf.2.2.1]
      rfl

theorem claim10_odds_interpretation_mismatch_witness :
    implied_probability (OddsVal.str "45") = impliedFromValue (-110) ∧
    profitResult (OddsVal.str "45") = some (((digitsToNat ("45" : String).data : ℤ) : ℚ) / 100) :=
  ⟨claim10_odds_interpretation_mismatch.1 "45" (by decide),
    claim10_odds_interpretation_mismatch.2.1 "45" (by decide) (by decide)⟩

end PropBet

